import Mathlib

/-!
Verification of the symbol-hallucination detector of `provimedia-mcp`
(`src/mcp-server/chainguard/symbol_validator.py` and `symbol_patterns.py`).

The Python code is embedded shallowly:
* strings are `String` / `List Char` (the repository's inputs are ASCII source
  text, so the ASCII semantics of Python's `re` character classes apply);
* the regular expressions of the pattern registry are embedded as terms of a
  small regex AST `Re`, matched by a fuel-bounded backtracking matcher whose
  semantics (leftmost match, greedy quantifiers with backtracking, ordered
  alternation, word boundaries, lookarounds, MULTILINE `^`) mirrors Python's
  `re` on the constructs these patterns use; each AST term carries the original
  pattern string in a comment;
* floating-point confidence arithmetic is modelled over `ℚ`; every concrete
  comparison appearing in a theorem below falls on the same side for IEEE
  doubles and for `ℚ` (the constants are multiples of 0.05 and the code only
  compares against 0.8 / 0.9 / 0.1);
* Python `set`s that are only used for membership are modelled as `List`s;
* the global mutable validation mode read by `SymbolValidator.validate` is
  passed as an explicit argument (state passing);
* the optional generated asset `data/php_builtins.json` is absent from the
  repository, so `BUILTINS[PHP]` is exactly the static table.
-/

namespace Chainguard

set_option maxRecDepth 40000

/-- `Language` enum from symbol_patterns.py. -/
inductive Language where
  | php
  | javascript
  | typescript
  | python
  | csharp
  | go
  | rust
deriving DecidableEq, Repr

/-- ASCII `\w` of Python `re`: `[a-zA-Z0-9_]`. -/
def wordChar (c : Char) : Bool :=
  (('a' ≤ c && c ≤ 'z') || ('A' ≤ c && c ≤ 'Z') || ('0' ≤ c && c ≤ '9') || c = '_')

/-- ASCII `\s` of Python `re` (also Python's `str.strip` default set on ASCII text). -/
def spaceChar (c : Char) : Bool :=
  (c = ' ' || c = '\t' || c = '\n' || c = '\x0d' || c = '\x0b' || c = '\x0c')

/-- `[a-z]`. -/
def lowerAlpha (c : Char) : Bool := 'a' ≤ c && c ≤ 'z'

/-- `[A-Z]`. -/
def upperAlpha (c : Char) : Bool := 'A' ≤ c && c ≤ 'Z'

/-- `[0-9]`. -/
def digitChar (c : Char) : Bool := '0' ≤ c && c ≤ '9'

/-- ASCII lower-casing of one char, as Python `str.lower` acts on ASCII. -/
def lcChar (c : Char) : Char := if upperAlpha c then Char.ofNat (c.toNat + 32) else c

/-- ASCII lower-casing of a string (Python `str.lower` on ASCII text). -/
def lcStr (s : String) : String := String.mk (s.data.map lcChar)

/-- The single-quote character, `'`. -/
def squote : Char := Char.ofNat 39

/-- The backtick character. -/
def btick : Char := Char.ofNat 96

/-- The backslash character. -/
def bslash : Char := '\\'

/-!
## A small regex AST

Only the constructs used by the patterns in symbol_patterns.py /
symbol_validator.py are represented.  Quantifiers are greedy, alternation is
ordered, both with backtracking, exactly as in Python `re`.
-/

/-- Regex AST. `grp` is the (single) capturing group of a pattern; `cls` is a
single-character class; `bol` is `^` under `re.MULTILINE`; `eos` is `$`
without MULTILINE; `nlb` is a one-character negative lookbehind `(?<!…)`;
`nla` is a negative lookahead `(?!…)`. -/
inductive Re where
  | eps : Re
  | lit : Char → Re
  | str : List Char → Re
  | cls : (Char → Bool) → Re
  | cat : Re → Re → Re
  | alt : Re → Re → Re
  | star : Re → Re
  | plus : Re → Re
  | opt : Re → Re
  | grp : Re → Re
  | wordB : Re
  | bol : Re
  | eos : Re
  | nlb : (Char → Bool) → Re
  | nla : Re → Re

/-- Sequence a list of regexes. -/
def Re.seq (rs : List Re) : Re := rs.foldr Re.cat Re.eps

/-- Ordered alternation of a list of regexes (first alternative preferred). -/
def Re.alts : List Re → Re
  | [] => Re.nla Re.eps
  | [r] => r
  | r :: rs => Re.alt r (Re.alts rs)

/-- A structural size measure used to bound the backtracking depth. -/
def Re.size : Re → Nat
  | .eps => 1
  | .lit _ => 1
  | .str cs => cs.length + 1
  | .cls _ => 1
  | .cat a b => a.size + b.size + 1
  | .alt a b => a.size + b.size + 1
  | .star a => a.size + 2
  | .plus a => 2 * a.size + 3
  | .opt a => a.size + 1
  | .grp a => a.size + 1
  | .wordB => 1
  | .bol => 1
  | .eos => 1
  | .nlb _ => 1
  | .nla a => a.size + 1

/-- Does the literal list `cs` occur in `s` starting at `pos`? -/
def litAt (s : List Char) (pos : Nat) (cs : List Char) : Bool :=
  match cs with
  | [] => true
  | c :: cs' =>
    match s.get? pos with
    | some c' => c' = c && litAt s (pos + 1) cs'
    | none => false

/-- Is the character at `pos` (if any) a word character?  Positions outside the
string count as non-word, as in Python `re`'s `\b`. -/
def wordAt (s : List Char) (pos : Nat) : Bool :=
  match s.get? pos with
  | some c => wordChar c
  | none => false

/-- The backtracking matcher, in continuation-passing style.  `s` is the whole
subject string, `pos` the current position, `cap` the capture registered so
far (span of the capturing group), and `k` the continuation.  Greedy
quantifiers try the longer match first; `alt` tries the left alternative
first; both backtrack through the continuation, exactly as Python `re` does
on these constructs.  `fuel` bounds the recursion depth; `Re.fuelFor` below
provides enough fuel for all patterns in this development (every quantifier
in the embedded patterns consumes at least one character per iteration, which
the `pos' > pos` guard in `star` also enforces, mirroring Python's refusal to
loop on empty repetitions). -/
def Re.mrun (s : List Char) :
    Nat → Re → Nat → Option (Nat × Nat) →
    (Nat → Option (Nat × Nat) → Option (Nat × Option (Nat × Nat))) →
    Option (Nat × Option (Nat × Nat))
  | 0, _, _, _, _ => none
  | _ + 1, .eps, pos, cap, k => k pos cap
  | _ + 1, .lit c, pos, cap, k =>
    match s.get? pos with
    | some c' => if c' = c then k (pos + 1) cap else none
    | none => none
  | _ + 1, .str cs, pos, cap, k =>
    if litAt s pos cs then k (pos + cs.length) cap else none
  | _ + 1, .cls p, pos, cap, k =>
    match s.get? pos with
    | some c' => if p c' then k (pos + 1) cap else none
    | none => none
  | fuel + 1, .cat a b, pos, cap, k =>
    Re.mrun s fuel a pos cap (fun pos' cap' => Re.mrun s fuel b pos' cap' k)
  | fuel + 1, .alt a b, pos, cap, k =>
    match Re.mrun s fuel a pos cap k with
    | some r => some r
    | none => Re.mrun s fuel b pos cap k
  | fuel + 1, .star a, pos, cap, k =>
    match Re.mrun s fuel a pos cap (fun pos' cap' =>
        if pos' > pos then Re.mrun s fuel (.star a) pos' cap' k else k pos' cap') with
    | some r => some r
    | none => k pos cap
  | fuel + 1, .plus a, pos, cap, k =>
    Re.mrun s fuel (.cat a (.star a)) pos cap k
  | fuel + 1, .opt a, pos, cap, k =>
    match Re.mrun s fuel a pos cap k with
    | some r => some r
    | none => k pos cap
  | fuel + 1, .grp a, pos, cap, k =>
    Re.mrun s fuel a pos cap (fun pos' _ => k pos' (some (pos, pos')))
  | _ + 1, .wordB, pos, cap, k =>
    if (match pos with
        | 0 => false
        | q + 1 => wordAt s q) ≠ wordAt s pos then k pos cap else none
  | _ + 1, .bol, pos, cap, k =>
    (match pos with
     | 0 => k pos cap
     | q + 1 => if s.get? q = some '\n' then k pos cap else none)
  | _ + 1, .eos, pos, cap, k =>
    if pos = s.length || (pos + 1 = s.length && s.get? pos = some '\n') then k pos cap
    else none
  | _ + 1, .nlb p, pos, cap, k =>
    (match pos with
     | 0 => k pos cap
     | q + 1 =>
       match s.get? q with
       | some c => if p c then none else k pos cap
       | none => k pos cap)
  | fuel + 1, .nla a, pos, cap, k =>
    match Re.mrun s fuel a pos none (fun p c => some (p, c)) with
    | some _ => none
    | none => k pos cap

/-- Fuel that is ample for matching `r` against `s` starting anywhere. -/
def Re.fuelFor (r : Re) (s : List Char) : Nat :=
  (s.length + 2) * (r.size + 2) + 64

/-- Try to match `r` at position `pos` of `s` (like an anchored `regex.match` at
that position).  Returns the end position of the (leftmost, greedy) match and
the capture span, if any. -/
def Re.matchAt (r : Re) (s : List Char) (pos : Nat) : Option (Nat × Option (Nat × Nat)) :=
  Re.mrun s (Re.fuelFor r s) r pos none (fun p c => some (p, c))

/-- All matches of `r` in `s`, scanning from `pos`, non-overlapping, leftmost
first — the semantics of Python's `finditer`.  Returns
`(start, end, capture span)` triples. -/
def Re.finditerFrom (r : Re) (s : List Char) : Nat → Nat → List (Nat × Nat × Option (Nat × Nat))
  | 0, _ => []
  | fuel + 1, pos =>
    if pos > s.length then []
    else
      match Re.matchAt r s pos with
      | some (e, cap) =>
        (pos, e, cap) :: Re.finditerFrom r s fuel (if e > pos then e else pos + 1)
      | none => Re.finditerFrom r s fuel (pos + 1)

/-- `re.finditer` over the whole subject. -/
def Re.finditer (r : Re) (s : List Char) : List (Nat × Nat × Option (Nat × Nat)) :=
  Re.finditerFrom r s (s.length + 1) 0

/-- The substring of `s` from `a` (inclusive) to `b` (exclusive). -/
def sliceStr (s : List Char) (a b : Nat) : String :=
  String.mk ((s.drop a).take (b - a))

/-- The captured strings of all matches of `r` in `s`, in match order — the
`for match in pattern.finditer(line): for name in match.groups()` loop of the
extractor (every embedded pattern has exactly one capturing group, which
always participates in a successful match). -/
def Re.captures (r : Re) (s : List Char) : List String :=
  (Re.finditer r s).filterMap (fun m => m.2.2.map (fun ab => sliceStr s ab.1 ab.2))

/-- Does `r` match anywhere in `s`?  (`pattern.search` used as a boolean.) -/
def Re.isFound (r : Re) (s : List Char) : Bool :=
  !(Re.finditer r s).isEmpty

/-- The number of matches of `r` in `s` (`len(re.findall(...))`). -/
def Re.countMatches (r : Re) (s : List Char) : Nat :=
  (Re.finditer r s).length

/-- `re.sub(r, repl, s)`: replace every (non-overlapping, leftmost) match by
`repl`. -/
def Re.subAll (r : Re) (repl : List Char) (s : List Char) : List Char :=
  go (s.length + 1) 0
where
  go : Nat → Nat → List Char
    | 0, pos => s.drop pos
    | fuel + 1, pos =>
      if pos ≥ s.length then []
      else
        match Re.matchAt r s pos with
        | some (e, _) =>
          repl ++ go fuel (if e > pos then e else pos + 1)
        | none =>
          (match s.get? pos with
           | some c => [c]
           | none => []) ++ go fuel (pos + 1)

/-!
## Character classes and pattern building blocks
-/

/-- `[a-zA-Z_]`. -/
def cIdentStart (c : Char) : Bool := lowerAlpha c || upperAlpha c || c = '_'

/-- `[a-zA-Z0-9_]`. -/
def cIdentCont (c : Char) : Bool := cIdentStart c || digitChar c

/-- `[a-zA-Z_$]` (JavaScript / TypeScript identifiers). -/
def cJsStart (c : Char) : Bool := cIdentStart c || c = '$'

/-- `[a-zA-Z0-9_$]`. -/
def cJsCont (c : Char) : Bool := cJsStart c || digitChar c

/-- `[a-zA-Z0-9]` (Go / Rust type-name tails). -/
def cAlnum (c : Char) : Bool := lowerAlpha c || upperAlpha c || digitChar c

/-- `[a-z_]`. -/
def cLowStart (c : Char) : Bool := lowerAlpha c || c = '_'

/-- `[a-z0-9_]`. -/
def cLowCont (c : Char) : Bool := cLowStart c || digitChar c

/-- `\s*` -/
def sp0 : Re := .star (.cls spaceChar)

/-- `\s+` -/
def sp1 : Re := .plus (.cls spaceChar)

/-- An identifier: one `first`-class char followed by any number of
`rest`-class chars (greedy). -/
def identRe (first rest : Char → Bool) : Re := .cat (.cls first) (.star (.cls rest))

/-- A captured identifier. -/
def gIdent (first rest : Char → Bool) : Re := .grp (identRe first rest)

/-- `([a-zA-Z_][a-zA-Z0-9_]*)` -/
def gId : Re := gIdent cIdentStart cIdentCont

/-- `([a-zA-Z_$][a-zA-Z0-9_$]*)` -/
def gJsId : Re := gIdent cJsStart cJsCont

/-- `<[^>]+>` -/
def genericArg : Re := .seq [.lit '<', .plus (.cls (fun c => c ≠ '>')), .lit '>']

/-- `\([^)]*\)` -/
def parenGroup : Re := .seq [.lit '(', .star (.cls (fun c => c ≠ ')')), .lit ')']

/-- `(?:async\s+)?` -/
def optAsync : Re := .opt (.cat (.str "async".data) sp1)

/-- `(?:static\s+)?` -/
def optStatic : Re := .opt (.cat (.str "static".data) sp1)

/-- `(?:public|private|protected)` -/
def accessPPP : Re := .alts [.str "public".data, .str "private".data, .str "protected".data]

/-- `(?:public|private|protected|internal)` -/
def accessPPPI : Re := .alts [.str "public".data, .str "private".data, .str "protected".data,
  .str "internal".data]

/-- `(?:const|let|var)` -/
def constLetVar : Re := .alts [.str "const".data, .str "let".data, .str "var".data]

/-- `\w+(?:<[^>]+>)?` — a C# type expression. -/
def csTypeRe : Re := .cat (.plus (.cls wordChar)) (.opt genericArg)

/-!
## CALL_PATTERNS (symbol_patterns.py)
-/

-- PHP call patterns.
-- r'\b([a-zA-Z_][a-zA-Z0-9_]*)\s*\('
def phpCall1 : Re := .seq [.wordB, gId, sp0, .lit '(']
-- r'->\s*([a-zA-Z_][a-zA-Z0-9_]*)\s*\('
def phpCall2 : Re := .seq [.str "->".data, sp0, gId, sp0, .lit '(']
-- r'(?:[A-Z][a-zA-Z0-9_]*)::([a-zA-Z_][a-zA-Z0-9_]*)\s*\('
def phpCall3 : Re := .seq [.cls upperAlpha, .star (.cls cIdentCont), .str "::".data, gId, sp0,
  .lit '(']
-- r'\?->\s*([a-zA-Z_][a-zA-Z0-9_]*)\s*\('
def phpCall4 : Re := .seq [.lit '?', .str "->".data, sp0, gId, sp0, .lit '(']

-- JavaScript call patterns.
-- r'\b([a-zA-Z_$][a-zA-Z0-9_$]*)\s*\('
def jsCall1 : Re := .seq [.wordB, gJsId, sp0, .lit '(']
-- r'\.\s*([a-zA-Z_$][a-zA-Z0-9_$]*)\s*\('
def jsCall2 : Re := .seq [.lit '.', sp0, gJsId, sp0, .lit '(']
-- r'\?\.\s*([a-zA-Z_$][a-zA-Z0-9_$]*)\s*\('
def jsCall3 : Re := .seq [.lit '?', .lit '.', sp0, gJsId, sp0, .lit '(']

-- TypeScript call patterns (the three JavaScript ones plus generics).
-- r'\b([a-zA-Z_$][a-zA-Z0-9_$]*)\s*<[^>]+>\s*\('
def tsCall4 : Re := .seq [.wordB, gJsId, sp0, genericArg, sp0, .lit '(']

-- Python call patterns.
-- r'\b([a-zA-Z_][a-zA-Z0-9_]*)\s*\('
def pyCall1 : Re := .seq [.wordB, gId, sp0, .lit '(']
-- r'\.\s*([a-zA-Z_][a-zA-Z0-9_]*)\s*\('
def pyCall2 : Re := .seq [.lit '.', sp0, gId, sp0, .lit '(']

-- C# call patterns.
-- r'\b([A-Za-z_][A-Za-z0-9_]*)\s*\('
def csCall1 : Re := .seq [.wordB, gId, sp0, .lit '(']
-- r'\.\s*([A-Za-z_][A-Za-z0-9_]*)\s*\('
def csCall2 : Re := .seq [.lit '.', sp0, gId, sp0, .lit '(']
-- r'(?:[A-Z][A-Za-z0-9_]*)\s*\.\s*([A-Za-z_][A-Za-z0-9_]*)\s*\('
def csCall3 : Re := .seq [.cls upperAlpha, .star (.cls cIdentCont), sp0, .lit '.', sp0, gId, sp0,
  .lit '(']
-- r'\b([A-Za-z_][A-Za-z0-9_]*)\s*<[^>]+>\s*\('
def csCall4 : Re := .seq [.wordB, gId, sp0, genericArg, sp0, .lit '(']
-- r'await\s+(?:\w+\s*\.\s*)?([A-Za-z_][A-Za-z0-9_]*)\s*\('
def csCall5 : Re := .seq [.str "await".data, sp1,
  .opt (.seq [.plus (.cls wordChar), sp0, .lit '.', sp0]), gId, sp0, .lit '(']
-- r'\?\.\s*([A-Za-z_][A-Za-z0-9_]*)\s*\('
def csCall6 : Re := .seq [.lit '?', .lit '.', sp0, gId, sp0, .lit '(']

-- Go call patterns.
-- r'\b([a-z][a-zA-Z0-9]*)\s*\('
def goCall1 : Re := .seq [.wordB, gIdent lowerAlpha cAlnum, sp0, .lit '(']
-- r'\b([A-Z][a-zA-Z0-9]*)\s*\('
def goCall2 : Re := .seq [.wordB, gIdent upperAlpha cAlnum, sp0, .lit '(']
-- r'\.\s*([A-Z][a-zA-Z0-9]*)\s*\('
def goCall3 : Re := .seq [.lit '.', sp0, gIdent upperAlpha cAlnum, sp0, .lit '(']
-- r'(?:[a-z][a-zA-Z0-9]*)\s*\.\s*([A-Z][a-zA-Z0-9]*)\s*\('
def goCall4 : Re := .seq [.cls lowerAlpha, .star (.cls cAlnum), sp0, .lit '.', sp0,
  gIdent upperAlpha cAlnum, sp0, .lit '(']

-- Rust call patterns.
-- r'\b([a-zA-Z_][a-zA-Z0-9_]*)\s*\('
def rsCall1 : Re := .seq [.wordB, gId, sp0, .lit '(']
-- r'\.\s*([a-zA-Z_][a-zA-Z0-9_]*)\s*\('
def rsCall2 : Re := .seq [.lit '.', sp0, gId, sp0, .lit '(']
-- r'\b([a-zA-Z_][a-zA-Z0-9_]*)\s*::\s*<[^>]+>\s*\('
def rsCall3 : Re := .seq [.wordB, gId, sp0, .str "::".data, sp0, genericArg, sp0, .lit '(']
-- r'(?:[A-Z][a-zA-Z0-9]*)\s*::\s*([a-zA-Z_][a-zA-Z0-9_]*)\s*\('
def rsCall4 : Re := .seq [.cls upperAlpha, .star (.cls cAlnum), sp0, .str "::".data, sp0, gId,
  sp0, .lit '(']
-- r'\b([a-z_][a-z0-9_]*)\s*!\s*[(\[]'
def rsCall5 : Re := .seq [.wordB, gIdent cLowStart cLowCont, sp0, .lit '!', sp0,
  .cls (fun c => c = '(' || c = '[')]

/-- `CALL_PATTERNS` table from symbol_patterns.py. -/
def CALL_PATTERNS : Language → List Re
  | .php => [phpCall1, phpCall2, phpCall3, phpCall4]
  | .javascript => [jsCall1, jsCall2, jsCall3]
  | .typescript => [jsCall1, jsCall2, jsCall3, tsCall4]
  | .python => [pyCall1, pyCall2]
  | .csharp => [csCall1, csCall2, csCall3, csCall4, csCall5, csCall6]
  | .go => [goCall1, goCall2, goCall3, goCall4]
  | .rust => [rsCall1, rsCall2, rsCall3, rsCall4, rsCall5]

/-!
## DEFINITION_PATTERNS (symbol_patterns.py)
-/

-- PHP definition patterns.
-- r'function\s+([a-zA-Z_][a-zA-Z0-9_]*)\s*\('
def phpDef1 : Re := .seq [.str "function".data, sp1, gId, sp0, .lit '(']
-- r'(?:public|private|protected)\s+(?:static\s+)?function\s+([a-zA-Z_][a-zA-Z0-9_]*)\s*\('
def phpDef2 : Re := .seq [accessPPP, sp1, optStatic, .str "function".data, sp1, gId, sp0,
  .lit '(']

-- JavaScript definition patterns.
-- r'function\s+([a-zA-Z_$][a-zA-Z0-9_$]*)\s*\('
def jsDef1 : Re := .seq [.str "function".data, sp1, gJsId, sp0, .lit '(']
-- r'(?:const|let|var)\s+([a-zA-Z_$][a-zA-Z0-9_$]*)\s*=\s*(?:async\s*)?\([^)]*\)\s*=>'
def jsDef2 : Re := .seq [constLetVar, sp1, gJsId, sp0, .lit '=', sp0,
  .opt (.cat (.str "async".data) sp0), parenGroup, sp0, .str "=>".data]
-- r'(?:const|let|var)\s+([a-zA-Z_$][a-zA-Z0-9_$]*)\s*=\s*(?:async\s+)?function'
def jsDef3 : Re := .seq [constLetVar, sp1, gJsId, sp0, .lit '=', sp0, optAsync,
  .str "function".data]
-- r'^\s*(?:async\s+)?([a-zA-Z_$][a-zA-Z0-9_$]*)\s*\([^)]*\)\s*\{'
def jsDef4 : Re := .seq [.bol, sp0, optAsync, gJsId, sp0, parenGroup, sp0, .lit '\x7b']
-- r'(?:static\s+)?(?:async\s+)?([a-zA-Z_$][a-zA-Z0-9_$]*)\s*\([^)]*\)\s*\{'
def jsDef5 : Re := .seq [optStatic, optAsync, gJsId, sp0, parenGroup, sp0, .lit '\x7b']

-- TypeScript definition patterns.
-- r'function\s+([a-zA-Z_$][a-zA-Z0-9_$]*)\s*(?:<[^>]+>)?\s*\('
def tsDef1 : Re := .seq [.str "function".data, sp1, gJsId, sp0, .opt genericArg, sp0, .lit '(']
-- r'(?:const|let|var)\s+([a-zA-Z_$][a-zA-Z0-9_$]*)\s*=\s*(?:async\s*)?\([^)]*\)\s*=>'
def tsDef2 : Re := jsDef2
-- r'(?:const|let|var)\s+([a-zA-Z_$][a-zA-Z0-9_$]*)\s*=\s*(?:async\s+)?function'
def tsDef3 : Re := jsDef3
-- r'function\s+([a-zA-Z_$][a-zA-Z0-9_$]*)\s*(?:<[^>]+>)?\s*\([^)]*\)\s*:\s*\w+'
def tsDef4 : Re := .seq [.str "function".data, sp1, gJsId, sp0, .opt genericArg, sp0, parenGroup,
  sp0, .lit ':', sp0, .plus (.cls wordChar)]
-- r'^\s*([a-zA-Z_$][a-zA-Z0-9_$]*)\s*(?:<[^>]+>)?\s*\([^)]*\)\s*:\s*\w+\s*;'
def tsDef5 : Re := .seq [.bol, sp0, gJsId, sp0, .opt genericArg, sp0, parenGroup, sp0, .lit ':',
  sp0, .plus (.cls wordChar), sp0, .lit ';']
-- r'(?:public|private|protected)\s+(?:static\s+)?(?:async\s+)?([a-zA-Z_$][a-zA-Z0-9_$]*)\s*\('
def tsDef6 : Re := .seq [accessPPP, sp1, optStatic, optAsync, gJsId, sp0, .lit '(']
-- r'static\s+(?:async\s+)?([a-zA-Z_$][a-zA-Z0-9_$]*)\s*\('
def tsDef7 : Re := .seq [.str "static".data, sp1, optAsync, gJsId, sp0, .lit '(']
-- r'async\s+([a-zA-Z_$][a-zA-Z0-9_$]*)\s*\([^)]*\)\s*:\s*\w+'
def tsDef8 : Re := .seq [.str "async".data, sp1, gJsId, sp0, parenGroup, sp0, .lit ':', sp0,
  .plus (.cls wordChar)]
-- r'abstract\s+([a-zA-Z_$][a-zA-Z0-9_$]*)\s*\([^)]*\)\s*:\s*\w+'
def tsDef9 : Re := .seq [.str "abstract".data, sp1, gJsId, sp0, parenGroup, sp0, .lit ':', sp0,
  .plus (.cls wordChar)]
-- r'^\s+([a-zA-Z_$][a-zA-Z0-9_$]*)\s*\([^)]*\)\s*:\s*\w+[^;]*\{'
def tsDef10 : Re := .seq [.bol, sp1, gJsId, sp0, parenGroup, sp0, .lit ':', sp0,
  .plus (.cls wordChar), .star (.cls (fun c => c ≠ ';')), .lit '\x7b']

-- Python definition patterns.
-- r'def\s+([a-z_][a-z0-9_]*)\s*\('
def pyDef1 : Re := .seq [.str "def".data, sp1, gIdent cLowStart cLowCont, sp0, .lit '(']
-- r'async\s+def\s+([a-z_][a-z0-9_]*)\s*\('
def pyDef2 : Re := .seq [.str "async".data, sp1, .str "def".data, sp1,
  gIdent cLowStart cLowCont, sp0, .lit '(']
-- r'class\s+([A-Z][a-zA-Z0-9_]*)\s*[:\(]'
def pyDef3 : Re := .seq [.str "class".data, sp1, gIdent upperAlpha cIdentCont, sp0,
  .cls (fun c => c = ':' || c = '(')]

-- C# definition patterns.
-- r'(?:public|private|protected|internal)\s+(?:static\s+)?(?:async\s+)?(?:override\s+)?
--   (?:virtual\s+)?(?:abstract\s+)?(?:\w+(?:<[^>]+>)?)\s+([A-Z][A-Za-z0-9_]*)\s*(?:<[^>]+>)?\s*\('
def csDef1 : Re := .seq [accessPPPI, sp1, optStatic, optAsync,
  .opt (.cat (.str "override".data) sp1), .opt (.cat (.str "virtual".data) sp1),
  .opt (.cat (.str "abstract".data) sp1), csTypeRe, sp1, gIdent upperAlpha cIdentCont, sp0,
  .opt genericArg, sp0, .lit '(']
-- r'(?:public|private|protected|internal)\s+([A-Z][A-Za-z0-9_]*)\s*\([^)]*\)\s*(?::|{)'
def csDef2 : Re := .seq [accessPPPI, sp1, gIdent upperAlpha cIdentCont, sp0, parenGroup, sp0,
  .alt (.lit ':') (.lit '\x7b')]
-- r'(?:public|private|protected|internal)\s+(?:static\s+)?(?:\w+(?:<[^>]+>)?)\s+([A-Z][A-Za-z0-9_]*)\s*\([^)]*\)\s*=>'
def csDef3 : Re := .seq [accessPPPI, sp1, optStatic, csTypeRe, sp1,
  gIdent upperAlpha cIdentCont, sp0, parenGroup, sp0, .str "=>".data]
-- r'^\s*(?:\w+(?:<[^>]+>)?)\s+([A-Z][A-Za-z0-9_]*)\s*\([^)]*\)\s*;'
def csDef4 : Re := .seq [.bol, sp0, csTypeRe, sp1, gIdent upperAlpha cIdentCont, sp0,
  parenGroup, sp0, .lit ';']

-- Go definition patterns.
-- r'func\s+([a-zA-Z][a-zA-Z0-9]*)\s*\('
def goDef1 : Re := .seq [.str "func".data, sp1, gIdent (fun c => lowerAlpha c || upperAlpha c)
  cAlnum, sp0, .lit '(']
-- r'func\s+\([^)]+\)\s+([A-Z][a-zA-Z0-9]*)\s*\('
def goDef2 : Re := .seq [.str "func".data, sp1, .lit '(', .plus (.cls (fun c => c ≠ ')')),
  .lit ')', sp1, gIdent upperAlpha cAlnum, sp0, .lit '(']
-- r'type\s+([A-Z][a-zA-Z0-9]*)\s+struct\s*\{'
def goDef3 : Re := .seq [.str "type".data, sp1, gIdent upperAlpha cAlnum, sp1,
  .str "struct".data, sp0, .lit '\x7b']
-- r'type\s+([A-Z][a-zA-Z0-9]*)\s+interface\s*\{'
def goDef4 : Re := .seq [.str "type".data, sp1, gIdent upperAlpha cAlnum, sp1,
  .str "interface".data, sp0, .lit '\x7b']

-- Rust definition patterns.
-- r'fn\s+([a-z_][a-z0-9_]*)\s*(?:<[^>]+>)?\s*\('
def rsDef1 : Re := .seq [.str "fn".data, sp1, gIdent cLowStart cLowCont, sp0, .opt genericArg,
  sp0, .lit '(']
-- r'pub\s+(?:async\s+)?fn\s+([a-z_][a-z0-9_]*)\s*(?:<[^>]+>)?\s*\('
def rsDef2 : Re := .seq [.str "pub".data, sp1, optAsync, .str "fn".data, sp1,
  gIdent cLowStart cLowCont, sp0, .opt genericArg, sp0, .lit '(']
-- r'(?:pub\s+)?struct\s+([A-Z][a-zA-Z0-9]*)'
def rsDef3 : Re := .seq [.opt (.cat (.str "pub".data) sp1), .str "struct".data, sp1,
  gIdent upperAlpha cAlnum]
-- r'(?:pub\s+)?enum\s+([A-Z][a-zA-Z0-9]*)'
def rsDef4 : Re := .seq [.opt (.cat (.str "pub".data) sp1), .str "enum".data, sp1,
  gIdent upperAlpha cAlnum]
-- r'(?:pub\s+)?trait\s+([A-Z][a-zA-Z0-9]*)'
def rsDef5 : Re := .seq [.opt (.cat (.str "pub".data) sp1), .str "trait".data, sp1,
  gIdent upperAlpha cAlnum]
-- r'impl(?:<[^>]+>)?\s+([A-Z][a-zA-Z0-9]*)'
def rsDef6 : Re := .seq [.str "impl".data, .opt genericArg, sp1, gIdent upperAlpha cAlnum]

/-- `DEFINITION_PATTERNS` table from symbol_patterns.py. -/
def DEFINITION_PATTERNS : Language → List Re
  | .php => [phpDef1, phpDef2]
  | .javascript => [jsDef1, jsDef2, jsDef3, jsDef4, jsDef5]
  | .typescript => [tsDef1, tsDef2, tsDef3, tsDef4, tsDef5, tsDef6, tsDef7, tsDef8, tsDef9,
      tsDef10]
  | .python => [pyDef1, pyDef2, pyDef3]
  | .csharp => [csDef1, csDef2, csDef3, csDef4]
  | .go => [goDef1, goDef2, goDef3, goDef4]
  | .rust => [rsDef1, rsDef2, rsDef3, rsDef4, rsDef5, rsDef6]

/-!
## PROPERTY_PATTERNS (symbol_patterns.py)
-/

-- r'(?:public|private|protected)\s+\$([a-zA-Z_][a-zA-Z0-9_]*)'
def phpProp1 : Re := .seq [accessPPP, sp1, .lit '$', gId]
-- r'\$this\s*->\s*([a-zA-Z_][a-zA-Z0-9_]*)'
def phpProp2 : Re := .seq [.str "$this".data, sp0, .str "->".data, sp0, gId]
-- r'this\s*\.\s*([a-zA-Z_$][a-zA-Z0-9_$]*)'
def jsProp1 : Re := .seq [.str "this".data, sp0, .lit '.', sp0, gJsId]
-- r'\.([a-zA-Z_$][a-zA-Z0-9_$]*)(?!\s*\()'
def jsProp2 : Re := .seq [.lit '.', gJsId, .nla (.cat sp0 (.lit '('))]
-- r'\.([a-zA-Z_$][a-zA-Z0-9_$]*)(?!\s*[<(])'
def tsProp2 : Re := .seq [.lit '.', gJsId, .nla (.cat sp0 (.cls (fun c => c = '<' || c = '(')))]
-- r'self\s*\.\s*([a-z_][a-z0-9_]*)\s*='
def pyProp1 : Re := .seq [.str "self".data, sp0, .lit '.', sp0, gIdent cLowStart cLowCont, sp0,
  .lit '=']
-- r'self\s*\.\s*([a-z_][a-z0-9_]*)'
def pyProp2 : Re := .seq [.str "self".data, sp0, .lit '.', sp0, gIdent cLowStart cLowCont]
-- r'(?:public|private|protected|internal)\s+(?:static\s+)?(?:virtual\s+)?(?:\w+(?:<[^>]+>)?)\s+([A-Z][A-Za-z0-9_]*)\s*\{\s*get'
def csProp1 : Re := .seq [accessPPPI, sp1, optStatic, .opt (.cat (.str "virtual".data) sp1),
  csTypeRe, sp1, gIdent upperAlpha cIdentCont, sp0, .lit '\x7b', sp0, .str "get".data]
-- r'(?:private|protected)\s+(?:readonly\s+)?(?:\w+(?:<[^>]+>)?)\s+(_[a-z][A-Za-z0-9_]*)\s*[;=]'
def csProp2 : Re := .seq [.alt (.str "private".data) (.str "protected".data), sp1,
  .opt (.cat (.str "readonly".data) sp1), csTypeRe, sp1,
  .grp (.seq [.lit '_', .cls lowerAlpha, .star (.cls cIdentCont)]), sp0,
  .cls (fun c => c = ';' || c = '=')]
-- r'\.([A-Z][a-zA-Z0-9]*)\b(?!\s*\()'
def goProp1 : Re := .seq [.lit '.', gIdent upperAlpha cAlnum, .wordB,
  .nla (.cat sp0 (.lit '('))]
-- r'\.([a-z_][a-z0-9_]*)(?!\s*[(<])'
def rsProp1 : Re := .seq [.lit '.', gIdent cLowStart cLowCont,
  .nla (.cat sp0 (.cls (fun c => c = '(' || c = '<')))]

/-- `PROPERTY_PATTERNS` table from symbol_patterns.py. -/
def PROPERTY_PATTERNS : Language → List Re
  | .php => [phpProp1, phpProp2]
  | .javascript => [jsProp1, jsProp2]
  | .typescript => [jsProp1, tsProp2]
  | .python => [pyProp1, pyProp2]
  | .csharp => [csProp1, csProp2]
  | .go => [goProp1]
  | .rust => [rsProp1]

/-!
## DYNAMIC_PATTERNS (symbol_patterns.py)
-/

-- r'\$\w+\s*\('
def phpDyn1 : Re := .seq [.lit '$', .plus (.cls wordChar), sp0, .lit '(']
-- r'\$this\s*->\s*\$\w+'
def phpDyn2 : Re := .seq [.str "$this".data, sp0, .str "->".data, sp0, .lit '$',
  .plus (.cls wordChar)]
-- r'__call\s*\('
def phpDyn5 : Re := .seq [.str "__call".data, sp0, .lit '(']

-- r'\[\s*\w+\s*\]\s*\('
def jsDyn1 : Re := .seq [.lit '[', sp0, .plus (.cls wordChar), sp0, .lit ']', sp0, .lit '(']
-- r'eval\s*\('  (and the analogous NAME\s*\( patterns below)
def nameParen (name : String) : Re := .seq [.str name.data, sp0, .lit '(']
-- r'Reflect\.'
def jsDyn6 : Re := .str "Reflect.".data

-- r'as\s+any' / r'as\s+unknown'
def tsDyn8 : Re := .seq [.str "as".data, sp1, .str "any".data]
def tsDyn9 : Re := .seq [.str "as".data, sp1, .str "unknown".data]

-- r'dynamic\s+'
def csDyn7 : Re := .cat (.str "dynamic".data) sp1
-- r'Activator\.CreateInstance'
def csDyn6 : Re := .str "Activator.CreateInstance".data

-- r'reflect\.'
def goDyn1 : Re := .str "reflect.".data
-- r'interface\s*\{\s*\}'
def goDyn2 : Re := .seq [.str "interface".data, sp0, .lit '\x7b', sp0, .lit '\x7d']

/-- `DYNAMIC_PATTERNS` table from symbol_patterns.py. -/
def DYNAMIC_PATTERNS : Language → List Re
  | .php => [phpDyn1, phpDyn2, .str "call_user_func".data, .str "call_user_func_array".data,
      phpDyn5, .str "ReflectionMethod".data, .str "ReflectionClass".data,
      .str "method_exists".data, .str "property_exists".data]
  | .javascript => [jsDyn1, nameParen "eval", nameParen "Function", nameParen "apply",
      nameParen "call", jsDyn6, nameParen "Proxy"]
  | .typescript => [jsDyn1, nameParen "eval", nameParen "Function", nameParen "apply",
      nameParen "call", jsDyn6, nameParen "Proxy", tsDyn8, tsDyn9]
  | .python => [nameParen "getattr", nameParen "setattr", nameParen "hasattr",
      .str "__getattr__".data, .str "__getattribute__".data, nameParen "exec",
      nameParen "eval", nameParen "globals", nameParen "locals"]
  | .csharp => [nameParen "GetMethod", nameParen "GetProperty", nameParen "Invoke",
      nameParen "typeof", nameParen "GetType", csDyn6, csDyn7, .str "ExpandoObject".data]
  | .go => [goDyn1, goDyn2]
  | .rust => [.str "Any".data, .str "downcast".data, .str "type_id".data]

/-- `has_dynamic_patterns` from symbol_patterns.py: does any dynamic pattern
occur in the content? -/
def has_dynamic_patterns (content : String) (lang : Language) : Bool :=
  (DYNAMIC_PATTERNS lang).any (fun p => Re.isFound p content.data)

/-!
## Vocabularies (symbol_patterns.py)

The Python `set` literals are kept as lists in source order; they are only
ever used through membership tests.
-/

/-- BUILTINS[Language.PHP] from symbol_patterns.py (static table; the optional php_builtins.json asset is absent from the repository, so the table is the whole vocabulary). -/
def phpBuiltins : List String :=
  ["isset", "empty", "array", "list", "echo", "print", "die", "exit", "include", "include_once",
   "require", "require_once", "eval", "foreach", "while", "for", "if", "elseif", "else", "switch",
   "case", "catch", "match", "fn", "unset", "declare", "enddeclare", "endfor", "endforeach",
   "endif", "endswitch", "endwhile", "is_array", "is_string", "is_null", "is_numeric", "is_object",
   "is_bool", "is_int", "is_float", "is_callable", "is_resource", "gettype", "settype", "intval",
   "floatval", "strval", "boolval", "arrayval", "strlen", "strpos", "stripos", "strrpos",
   "strripos", "substr", "str_replace", "str_ireplace", "strtolower", "strtoupper", "ucfirst",
   "lcfirst", "ucwords", "trim", "ltrim", "rtrim", "str_pad", "str_repeat", "str_split",
   "str_word_count", "sprintf", "printf", "sscanf", "number_format", "money_format", "explode",
   "implode", "join", "chunk_split", "wordwrap", "nl2br", "htmlspecialchars", "htmlentities",
   "strip_tags", "addslashes", "stripslashes", "preg_match", "preg_match_all", "preg_replace",
   "preg_split", "preg_grep", "str_contains", "str_starts_with", "str_ends_with", "count",
   "sizeof", "array_push", "array_pop", "array_shift", "array_unshift", "array_merge",
   "array_combine", "array_keys", "array_values", "array_flip", "array_reverse", "array_slice",
   "array_splice", "array_chunk", "array_unique", "array_filter", "array_map", "array_reduce",
   "array_walk", "array_search", "in_array", "array_key_exists", "array_column", "array_fill",
   "array_pad", "sort", "rsort", "asort", "arsort", "ksort", "krsort", "usort", "uasort", "uksort",
   "array_multisort", "shuffle", "array_rand", "current", "key", "next", "prev", "reset", "end",
   "json_encode", "json_decode", "json_last_error", "json_last_error_msg", "file_get_contents",
   "file_put_contents", "file_exists", "is_file", "is_dir", "fopen", "fclose", "fread", "fwrite",
   "fgets", "fgetc", "feof", "fseek", "ftell", "file", "readfile", "glob", "scandir", "mkdir",
   "rmdir", "unlink", "rename", "copy", "dirname", "basename", "pathinfo", "realpath",
   "is_readable", "is_writable", "date", "time", "mktime", "strtotime", "getdate", "localtime",
   "checkdate", "date_create", "date_format", "date_modify", "date_diff", "date_add", "date_sub",
   "abs", "ceil", "floor", "round", "max", "min", "pow", "sqrt", "log", "log10", "rand", "mt_rand",
   "random_int", "random_bytes", "var_dump", "print_r", "var_export", "debug_zval_dump",
   "serialize", "unserialize", "class_exists", "interface_exists", "trait_exists", "method_exists",
   "property_exists", "get_class", "get_parent_class", "get_class_methods", "get_class_vars",
   "get_object_vars", "__construct", "__destruct", "__call", "__callStatic", "__get", "__set",
   "__isset", "__unset", "__sleep", "__wakeup", "__serialize", "__unserialize", "__toString",
   "__invoke", "__set_state", "__clone", "__debugInfo", "trigger_error", "user_error",
   "error_reporting", "set_error_handler", "session_start", "session_destroy",
   "session_regenerate_id", "session_id", "header", "headers_sent", "setcookie", "setrawcookie",
   "ob_start", "ob_end_flush", "ob_end_clean", "ob_get_contents", "ob_flush", "flush", "defined",
   "define", "constant", "compact", "extract", "call_user_func", "call_user_func_array",
   "func_get_args", "func_num_args"]

/-- BUILTINS[Language.JAVASCRIPT] from symbol_patterns.py. -/
def jsBuiltins : List String :=
  ["console", "log", "warn", "error", "info", "debug", "trace", "table", "dir", "assert", "clear",
   "count", "countReset", "group", "groupEnd", "time", "timeEnd", "setTimeout", "setInterval",
   "clearTimeout", "clearInterval", "requestAnimationFrame", "cancelAnimationFrame", "parseInt",
   "parseFloat", "isNaN", "isFinite", "Number", "String", "Boolean", "JSON", "parse", "stringify",
   "Object", "keys", "values", "entries", "assign", "freeze", "seal", "create", "defineProperty",
   "defineProperties", "getOwnPropertyNames", "getPrototypeOf", "hasOwnProperty", "isPrototypeOf",
   "propertyIsEnumerable", "Array", "from", "isArray", "of", "map", "filter", "reduce",
   "reduceRight", "forEach", "find", "findIndex", "findLast", "findLastIndex", "includes",
   "indexOf", "lastIndexOf", "some", "every", "flat", "flatMap", "slice", "splice", "concat",
   "join", "reverse", "sort", "fill", "copyWithin", "push", "pop", "shift", "unshift", "at",
   "with", "toSorted", "toReversed", "charAt", "charCodeAt", "codePointAt", "concat", "endsWith",
   "startsWith", "includes", "indexOf", "lastIndexOf", "localeCompare", "match", "matchAll",
   "normalize", "padEnd", "padStart", "repeat", "replace", "replaceAll", "search", "slice",
   "split", "substring", "toLowerCase", "toUpperCase", "trim", "trimStart", "trimEnd", "valueOf",
   "toString", "at", "Promise", "resolve", "reject", "all", "allSettled", "race", "any", "then",
   "catch", "finally", "fetch", "Request", "Response", "Headers", "URL", "URLSearchParams", "Math",
   "abs", "ceil", "floor", "round", "random", "max", "min", "pow", "sqrt", "sin", "cos", "tan",
   "asin", "acos", "atan", "atan2", "log", "log10", "log2", "exp", "sign", "trunc", "cbrt",
   "hypot", "clz32", "imul", "fround", "Date", "now", "getTime", "getFullYear", "getMonth",
   "getDate", "getDay", "getHours", "getMinutes", "getSeconds", "getMilliseconds", "toISOString",
   "toJSON", "toDateString", "toTimeString", "toLocaleDateString", "toLocaleTimeString", "Error",
   "TypeError", "RangeError", "ReferenceError", "SyntaxError", "EvalError", "URIError",
   "AggregateError", "encodeURI", "encodeURIComponent", "decodeURI", "decodeURIComponent", "btoa",
   "atob", "RegExp", "test", "exec", "require", "module", "exports", "import", "export", "default",
   "document", "window", "navigator", "location", "history", "localStorage", "sessionStorage",
   "getElementById", "getElementsByClassName", "getElementsByTagName", "getElementsByName",
   "querySelector", "querySelectorAll", "createElement", "createTextNode", "appendChild",
   "removeChild", "insertBefore", "replaceChild", "cloneNode", "addEventListener",
   "removeEventListener", "dispatchEvent", "getAttribute", "setAttribute", "removeAttribute",
   "hasAttribute", "classList", "add", "remove", "toggle", "contains", "replace", "style",
   "innerText", "innerHTML", "textContent", "value", "preventDefault", "stopPropagation",
   "stopImmediatePropagation", "Symbol", "iterator", "asyncIterator", "toStringTag", "species",
   "Reflect", "Proxy", "apply", "construct", "deleteProperty", "get", "set", "ArrayBuffer",
   "DataView", "Int8Array", "Uint8Array", "Uint8ClampedArray", "Int16Array", "Uint16Array",
   "Int32Array", "Uint32Array", "Float32Array", "Float64Array", "BigInt64Array", "BigUint64Array",
   "Map", "Set", "WeakMap", "WeakSet", "has", "get", "set", "delete", "clear", "size", "eval",
   "globalThis", "undefined", "null", "NaN", "Infinity", "queueMicrotask", "structuredClone",
   "crypto", "getRandomValues"]

/-- TypeScript-specific additions: BUILTINS[TYPESCRIPT] = BUILTINS[JAVASCRIPT] | these. -/
def tsExtraBuiltins : List String :=
  ["Partial", "Required", "Readonly", "Pick", "Omit", "Record", "Exclude", "Extract",
   "NonNullable", "ReturnType", "Parameters", "InstanceType", "ThisParameterType",
   "OmitThisParameter", "ThisType", "Uppercase", "Lowercase", "Capitalize", "Uncapitalize",
   "Awaited", "ConstructorParameters", "NoInfer"]

/-- BUILTINS[Language.PYTHON] from symbol_patterns.py. -/
def pyBuiltins : List String :=
  ["abs", "aiter", "all", "any", "anext", "ascii", "bin", "bool", "breakpoint", "bytearray",
   "bytes", "callable", "chr", "classmethod", "compile", "complex", "delattr", "dict", "dir",
   "divmod", "enumerate", "eval", "exec", "filter", "float", "format", "frozenset", "getattr",
   "globals", "hasattr", "hash", "help", "hex", "id", "input", "int", "isinstance", "issubclass",
   "iter", "len", "list", "locals", "map", "max", "memoryview", "min", "next", "object", "oct",
   "open", "ord", "pow", "print", "property", "range", "repr", "reversed", "round", "set",
   "setattr", "slice", "sorted", "staticmethod", "str", "sum", "super", "tuple", "type", "vars",
   "zip", "capitalize", "casefold", "center", "count", "encode", "endswith", "expandtabs", "find",
   "format", "format_map", "index", "isalnum", "isalpha", "isascii", "isdecimal", "isdigit",
   "isidentifier", "islower", "isnumeric", "isprintable", "isspace", "istitle", "isupper", "join",
   "ljust", "lower", "lstrip", "maketrans", "partition", "removeprefix", "removesuffix", "replace",
   "rfind", "rindex", "rjust", "rpartition", "rsplit", "rstrip", "split", "splitlines",
   "startswith", "strip", "swapcase", "title", "translate", "upper", "zfill", "append", "clear",
   "copy", "count", "extend", "index", "insert", "pop", "remove", "reverse", "sort", "clear",
   "copy", "fromkeys", "get", "items", "keys", "pop", "popitem", "setdefault", "update", "values",
   "add", "clear", "copy", "difference", "difference_update", "discard", "intersection",
   "intersection_update", "isdisjoint", "issubset", "issuperset", "pop", "remove",
   "symmetric_difference", "symmetric_difference_update", "union", "update", "read", "readline",
   "readlines", "write", "writelines", "seek", "tell", "close", "flush", "fileno", "isatty",
   "truncate", "BaseException", "Exception", "ArithmeticError", "AssertionError", "AttributeError",
   "BlockingIOError", "BrokenPipeError", "BufferError", "BytesWarning", "ChildProcessError",
   "ConnectionAbortedError", "ConnectionError", "ConnectionRefusedError", "ConnectionResetError",
   "DeprecationWarning", "EOFError", "EnvironmentError", "FileExistsError", "FileNotFoundError",
   "FloatingPointError", "FutureWarning", "GeneratorExit", "IOError", "ImportError",
   "ImportWarning", "IndentationError", "IndexError", "InterruptedError", "IsADirectoryError",
   "KeyError", "KeyboardInterrupt", "LookupError", "MemoryError", "ModuleNotFoundError",
   "NameError", "NotADirectoryError", "NotImplemented", "NotImplementedError", "OSError",
   "OverflowError", "PendingDeprecationWarning", "PermissionError", "ProcessLookupError",
   "RecursionError", "ReferenceError", "ResourceWarning", "RuntimeError", "RuntimeWarning",
   "StopAsyncIteration", "StopIteration", "SyntaxError", "SyntaxWarning", "SystemError",
   "SystemExit", "TabError", "TimeoutError", "TypeError", "UnboundLocalError",
   "UnicodeDecodeError", "UnicodeEncodeError", "UnicodeError", "UnicodeTranslateError",
   "UnicodeWarning", "UserWarning", "ValueError", "Warning", "ZeroDivisionError", "__init__",
   "__new__", "__del__", "__repr__", "__str__", "__bytes__", "__format__", "__lt__", "__le__",
   "__eq__", "__ne__", "__gt__", "__ge__", "__hash__", "__bool__", "__getattr__",
   "__getattribute__", "__setattr__", "__delattr__", "__dir__", "__get__", "__set__", "__delete__",
   "__set_name__", "__init_subclass__", "__class_getitem__", "__call__", "__len__",
   "__length_hint__", "__getitem__", "__setitem__", "__delitem__", "__missing__", "__iter__",
   "__reversed__", "__contains__", "__add__", "__sub__", "__mul__", "__matmul__", "__truediv__",
   "__floordiv__", "__mod__", "__divmod__", "__pow__", "__lshift__", "__rshift__", "__and__",
   "__xor__", "__or__", "__neg__", "__pos__", "__abs__", "__invert__", "__complex__", "__int__",
   "__float__", "__index__", "__round__", "__trunc__", "__floor__", "__ceil__", "__enter__",
   "__exit__", "__await__", "__aiter__", "__anext__", "__aenter__", "__aexit__"]

/-- BUILTINS[Language.CSHARP] from symbol_patterns.py. -/
def csBuiltins : List String :=
  ["ToString", "GetType", "Equals", "GetHashCode", "ReferenceEquals", "MemberwiseClone", "Console",
   "WriteLine", "ReadLine", "Write", "Read", "Clear", "Beep", "Add", "Remove", "Contains", "Clear",
   "Count", "Length", "Capacity", "Insert", "RemoveAt", "IndexOf", "LastIndexOf", "CopyTo",
   "ToArray", "Where", "Select", "SelectMany", "OrderBy", "OrderByDescending", "ThenBy",
   "ThenByDescending", "GroupBy", "Join", "GroupJoin", "Distinct", "Union", "Intersect", "Except",
   "Concat", "Zip", "Reverse", "SequenceEqual", "First", "FirstOrDefault", "Last", "LastOrDefault",
   "Single", "SingleOrDefault", "ElementAt", "ElementAtOrDefault", "DefaultIfEmpty", "Skip",
   "SkipWhile", "Take", "TakeWhile", "Any", "All", "Count", "LongCount", "Sum", "Min", "Max",
   "Average", "Aggregate", "ToList", "ToArray", "ToDictionary", "ToHashSet", "ToLookup",
   "AsEnumerable", "AsQueryable", "Cast", "OfType", "Format", "Concat", "Join", "Split", "Trim",
   "TrimStart", "TrimEnd", "PadLeft", "PadRight", "Replace", "Remove", "Insert", "Substring",
   "ToLower", "ToUpper", "ToLowerInvariant", "ToUpperInvariant", "StartsWith", "EndsWith",
   "Contains", "IndexOf", "LastIndexOf", "IsNullOrEmpty", "IsNullOrWhiteSpace", "Compare",
   "CompareTo", "Equals", "GetHashCode", "ToCharArray", "CopyTo", "Task", "Run", "Wait", "WaitAll",
   "WaitAny", "WhenAll", "WhenAny", "FromResult", "FromException", "FromCanceled", "Delay",
   "Yield", "ConfigureAwait", "GetAwaiter", "GetResult", "ContinueWith", "DateTime", "Now",
   "Today", "UtcNow", "Parse", "TryParse", "ParseExact", "AddDays", "AddHours", "AddMinutes",
   "AddSeconds", "AddMilliseconds", "AddMonths", "AddYears", "Subtract", "DayOfWeek", "DayOfYear",
   "TimeSpan", "FromDays", "FromHours", "FromMinutes", "FromSeconds", "FromMilliseconds",
   "FromTicks", "TotalDays", "TotalHours", "TotalMinutes", "TotalSeconds", "TotalMilliseconds",
   "Guid", "NewGuid", "Empty", "Parse", "TryParse", "Math", "Abs", "Ceiling", "Floor", "Round",
   "Truncate", "Max", "Min", "Pow", "Sqrt", "Log", "Log10", "Log2", "Exp", "Sin", "Cos", "Tan",
   "Asin", "Acos", "Atan", "Atan2", "Sign", "Clamp", "File", "Exists", "ReadAllText",
   "WriteAllText", "ReadAllLines", "WriteAllLines", "ReadAllBytes", "WriteAllBytes", "Create",
   "Delete", "Copy", "Move", "AppendAllText", "AppendAllLines", "Directory", "CreateDirectory",
   "GetFiles", "GetDirectories", "Path", "Combine", "GetFileName", "GetDirectoryName",
   "GetExtension", "GetFileNameWithoutExtension", "GetFullPath", "GetTempPath", "GetTempFileName",
   "Stream", "Read", "Write", "Seek", "Flush", "Close", "Dispose", "CopyTo", "CopyToAsync",
   "ReadAsync", "WriteAsync", "FlushAsync", "JsonSerializer", "Serialize", "Deserialize",
   "SerializeAsync", "DeserializeAsync", "JsonConvert", "SerializeObject", "DeserializeObject",
   "GetService", "GetRequiredService", "CreateScope", "AddScoped", "AddTransient", "AddSingleton",
   "AddDbContext", "UseRouting", "UseEndpoints", "UseAuthentication", "UseAuthorization",
   "MapControllers", "MapGet", "MapPost", "MapPut", "MapDelete", "AddControllers", "AddMvc",
   "AddRazorPages", "DbContext", "DbSet", "SaveChanges", "SaveChangesAsync", "Include",
   "ThenInclude", "AsNoTracking", "AsQueryable", "Find", "FindAsync", "Add", "AddAsync", "Update",
   "Remove", "Attach", "Entry", "ChangeTracker", "Database", "Migrate", "EnsureCreated"]

/-- BUILTINS[Language.GO] from symbol_patterns.py. -/
def goBuiltins : List String :=
  ["fmt", "Print", "Println", "Printf", "Sprint", "Sprintf", "Sprintln", "Fprint", "Fprintln",
   "Fprintf", "Scan", "Scanln", "Scanf", "Errorf", "Sscan", "Sscanln", "Sscanf", "append", "cap",
   "close", "complex", "copy", "delete", "imag", "len", "make", "new", "panic", "print", "println",
   "real", "recover", "errors", "New", "Is", "As", "Unwrap", "context", "Background", "TODO",
   "WithCancel", "WithDeadline", "WithTimeout", "WithValue", "Canceled", "DeadlineExceeded",
   "http", "Get", "Post", "Head", "NewRequest", "ListenAndServe", "Handle", "HandleFunc", "Serve",
   "FileServer", "NotFound", "Redirect", "json", "Marshal", "Unmarshal", "MarshalIndent",
   "NewEncoder", "NewDecoder", "Encode", "Decode", "Valid", "io", "Reader", "Writer", "ReadAll",
   "Copy", "CopyN", "CopyBuffer", "ReadFull", "WriteString", "Pipe", "TeeReader", "LimitReader",
   "NopCloser", "EOF", "ErrUnexpectedEOF", "ErrClosedPipe", "os", "Open", "Create", "OpenFile",
   "Remove", "RemoveAll", "Rename", "Mkdir", "MkdirAll", "ReadFile", "WriteFile", "Stat", "Lstat",
   "Getenv", "Setenv", "Unsetenv", "Environ", "Exit", "Getwd", "Chdir", "Args", "Stdin", "Stdout",
   "Stderr", "strings", "Contains", "ContainsAny", "ContainsRune", "Count", "EqualFold", "Fields",
   "HasPrefix", "HasSuffix", "Index", "IndexAny", "IndexByte", "IndexFunc", "IndexRune", "Join",
   "LastIndex", "LastIndexAny", "LastIndexByte", "LastIndexFunc", "Map", "Repeat", "Replace",
   "ReplaceAll", "Split", "SplitAfter", "SplitAfterN", "SplitN", "Title", "ToLower", "ToTitle",
   "ToUpper", "Trim", "TrimFunc", "TrimLeft", "TrimLeftFunc", "TrimPrefix", "TrimRight",
   "TrimRightFunc", "TrimSpace", "TrimSuffix", "strconv", "Atoi", "Itoa", "ParseBool",
   "ParseFloat", "ParseInt", "ParseUint", "FormatBool", "FormatFloat", "FormatInt", "FormatUint",
   "Quote", "QuoteRune", "Unquote", "UnquoteChar", "time", "Now", "Since", "Until", "Sleep",
   "After", "AfterFunc", "Tick", "NewTicker", "NewTimer", "Parse", "ParseDuration",
   "ParseInLocation", "Date", "Unix", "UnixMilli", "UnixMicro", "UnixNano", "Second", "Minute",
   "Hour", "Millisecond", "Microsecond", "Nanosecond", "sync", "Mutex", "RWMutex", "WaitGroup",
   "Once", "Cond", "Pool", "Map", "Lock", "Unlock", "RLock", "RUnlock", "Add", "Done", "Wait",
   "Do", "log", "Print", "Println", "Printf", "Fatal", "Fatalln", "Fatalf", "Panic", "Panicln",
   "Panicf", "SetOutput", "SetFlags", "SetPrefix", "testing", "T", "B", "M", "Error", "Errorf",
   "Fail", "FailNow", "Fatal", "Fatalf", "Log", "Logf", "Run", "Skip", "Skipf", "SkipNow",
   "reflect", "TypeOf", "ValueOf", "DeepEqual", "Copy", "Append", "MakeSlice", "MakeMap",
   "MakeChan", "MakeFunc", "Zero", "New", "sort", "Ints", "IntsAreSorted", "Float64s",
   "Float64sAreSorted", "Strings", "StringsAreSorted", "Slice", "SliceStable", "SliceIsSorted",
   "Search", "SearchInts", "SearchFloat64s", "SearchStrings", "Sort", "Reverse"]

/-- BUILTINS[Language.RUST] from symbol_patterns.py. -/
def rustBuiltins : List String :=
  ["println", "print", "eprintln", "eprint", "format", "write", "writeln", "panic", "assert",
   "assert_eq", "assert_ne", "debug_assert", "debug_assert_eq", "debug_assert_ne", "todo",
   "unimplemented", "unreachable", "cfg", "env", "concat", "stringify", "include", "include_str",
   "include_bytes", "file", "line", "column", "module_path", "option_env", "vec", "format_args",
   "matches", "try", "clone", "Clone", "copy", "Copy", "default", "Default", "eq", "Eq", "ord",
   "Ord", "hash", "Hash", "debug", "Debug", "display", "Display", "from", "From", "into", "Into",
   "as_ref", "AsRef", "as_mut", "AsMut", "deref", "Deref", "deref_mut", "DerefMut", "drop", "Drop",
   "iterator", "Iterator", "into_iter", "IntoIterator", "iter", "iter_mut", "partial_eq",
   "PartialEq", "partial_ord", "PartialOrd", "Option", "Some", "None", "is_some", "is_none",
   "unwrap", "unwrap_or", "unwrap_or_else", "unwrap_or_default", "expect", "ok_or", "ok_or_else",
   "map", "map_or", "map_or_else", "and", "and_then", "or", "or_else", "filter", "take", "replace",
   "cloned", "copied", "flatten", "transpose", "Result", "Ok", "Err", "is_ok", "is_err", "ok",
   "err", "unwrap", "unwrap_err", "unwrap_or", "unwrap_or_else", "unwrap_or_default", "expect",
   "expect_err", "map", "map_err", "map_or", "map_or_else", "and", "and_then", "or", "or_else",
   "String", "new", "from", "with_capacity", "push", "push_str", "pop", "truncate", "clear", "len",
   "is_empty", "capacity", "reserve", "shrink_to_fit", "as_str", "as_bytes", "as_mut_str",
   "insert", "insert_str", "remove", "retain", "split_off", "drain", "replace_range", "len",
   "is_empty", "as_bytes", "as_ptr", "get", "get_unchecked", "chars", "bytes", "char_indices",
   "split", "rsplit", "split_terminator", "rsplit_terminator", "splitn", "rsplitn", "lines",
   "contains", "starts_with", "ends_with", "find", "rfind", "matches", "rmatches", "match_indices",
   "rmatch_indices", "trim", "trim_start", "trim_end", "trim_matches", "strip_prefix",
   "strip_suffix", "parse", "replace", "replacen", "to_lowercase", "to_uppercase", "repeat",
   "to_string", "to_owned", "Vec", "new", "with_capacity", "from", "push", "pop", "insert",
   "remove", "swap_remove", "retain", "truncate", "clear", "len", "is_empty", "capacity",
   "reserve", "shrink_to_fit", "into_boxed_slice", "first", "last", "get", "get_mut", "iter",
   "iter_mut", "split", "splitn", "chunks", "windows", "sort", "sort_by", "sort_by_key", "reverse",
   "binary_search", "binary_search_by", "binary_search_by_key", "contains", "starts_with",
   "ends_with", "extend", "append", "drain", "split_off", "resize", "dedup", "dedup_by",
   "dedup_by_key", "HashMap", "new", "with_capacity", "insert", "remove", "get", "get_mut",
   "contains_key", "len", "is_empty", "clear", "keys", "values", "values_mut", "iter", "iter_mut",
   "drain", "entry", "or_insert", "or_insert_with", "HashSet", "new", "with_capacity", "insert",
   "remove", "contains", "get", "len", "is_empty", "clear", "iter", "drain", "difference",
   "symmetric_difference", "intersection", "union", "is_disjoint", "is_subset", "is_superset",
   "Box", "Rc", "Arc", "new", "clone", "downgrade", "upgrade", "strong_count", "weak_count",
   "ptr_eq", "as_ref", "into_inner", "Cell", "RefCell", "Mutex", "RwLock", "new", "get", "set",
   "take", "replace", "borrow", "borrow_mut", "try_borrow", "try_borrow_mut", "lock", "try_lock",
   "read", "write", "try_read", "try_write", "read", "read_to_string", "write", "create", "open",
   "remove_file", "remove_dir", "remove_dir_all", "create_dir", "create_dir_all", "read_dir",
   "copy", "rename", "metadata", "canonicalize", "Read", "Write", "BufRead", "Seek", "BufReader",
   "BufWriter", "stdin", "stdout", "stderr", "read_line", "read_to_end", "read_to_string",
   "write_all", "flush", "seek", "Path", "PathBuf", "new", "join", "push", "pop", "set_file_name",
   "set_extension", "file_name", "file_stem", "extension", "parent", "ancestors", "components",
   "is_absolute", "is_relative", "exists", "is_file", "is_dir", "display", "to_str",
   "to_string_lossy", "args", "args_os", "var", "var_os", "vars", "vars_os", "set_var",
   "remove_var", "current_dir", "set_current_dir", "temp_dir", "home_dir", "spawn", "sleep",
   "yield_now", "current", "park", "park_timeout", "JoinHandle", "join", "thread", "is_finished",
   "Instant", "Duration", "SystemTime", "now", "elapsed", "duration_since", "from_secs",
   "from_millis", "from_micros", "from_nanos", "as_secs", "as_millis", "as_micros", "as_nanos",
   "subsec_nanos"]

/-- COMMON_EXTERNAL_NAMES from symbol_patterns.py. -/
def COMMON_EXTERNAL_NAMES : List String :=
  ["request", "response", "get", "post", "put", "delete", "patch", "fetch", "send", "call",
   "invoke", "dispatch", "find", "findById", "findOne", "findAll", "findBy", "findWhere",
   "findOrFail", "findFirst", "findLast", "firstOrCreate", "firstOrNew", "updateOrCreate",
   "firstWhere", "getById", "getAll", "getOne", "where", "select", "from", "join", "orderBy",
   "groupBy", "having", "limit", "offset", "take", "skip", "paginate", "count", "sum", "avg",
   "map", "filter", "reduce", "each", "every", "some", "sort", "reverse", "first", "last", "pluck",
   "chunk", "flatten", "unique", "merge", "save", "update", "create", "destroy", "delete",
   "remove", "insert", "persist", "flush", "refresh", "detach", "attach", "sync", "execute",
   "handle", "process", "run", "perform", "apply", "validate", "transform", "parse", "serialize",
   "deserialize", "render", "build", "make", "resolve", "bind", "emit", "on", "off", "trigger",
   "listen", "subscribe", "publish", "notify", "observe", "dispatch", "broadcast", "log", "info",
   "warn", "error", "debug", "trace", "dump", "init", "start", "stop", "boot", "register",
   "destroy", "dispose", "mount", "unmount", "setup", "teardown", "configure"]

/-- `BUILTINS` lookup.  TypeScript inherits the JavaScript vocabulary plus its
own additions (`BUILTINS[TYPESCRIPT] = BUILTINS[JAVASCRIPT] | {...}`). -/
def BUILTINS : Language → List String
  | .php => phpBuiltins
  | .javascript => jsBuiltins
  | .typescript => jsBuiltins ++ tsExtraBuiltins
  | .python => pyBuiltins
  | .csharp => csBuiltins
  | .go => goBuiltins
  | .rust => rustBuiltins

/-- `is_builtin` from symbol_patterns.py.  PHP is compared case-insensitively
(`name.lower() in BUILTINS[PHP]`), every other language exact-case.  (The lazy
PHP JSON loading is a no-op here: the generated asset is not part of the
repository, so the static table is the full vocabulary.) -/
def is_builtin (name : String) (lang : Language) : Bool :=
  if lang = Language.php then (BUILTINS Language.php).contains (lcStr name)
  else (BUILTINS lang).contains name

/-- `is_common_external` from symbol_patterns.py:
`name in COMMON_EXTERNAL_NAMES or name.lower() in COMMON_EXTERNAL_NAMES`. -/
def is_common_external (name : String) : Bool :=
  COMMON_EXTERNAL_NAMES.contains name || COMMON_EXTERNAL_NAMES.contains (lcStr name)

/-!
## detect_language (symbol_patterns.py)
-/

/-- `EXTENSION_MAP` from symbol_patterns.py. -/
def EXTENSION_MAP : List (String × Language) :=
  [(".php", .php), (".js", .javascript), (".mjs", .javascript), (".cjs", .javascript),
   (".jsx", .javascript), (".ts", .typescript), (".tsx", .typescript), (".mts", .typescript),
   (".py", .python), (".pyw", .python), (".cs", .csharp), (".go", .go), (".rs", .rust)]

/-- Index of the last occurrence of `c` in `cs`, or `-1` (Python `str.rfind`). -/
def rfindI (cs : List Char) (c : Char) : Int :=
  go cs 0 (-1)
where
  go : List Char → Nat → Int → Int
    | [], _, acc => acc
    | x :: xs, i, acc => go xs (i + 1) (if x = c then Int.ofNat i else acc)

/-- The extension part of `os.path.splitext` (posix): the suffix from the last
dot, provided the dot lies after the last path separator and some non-dot
character of the basename precedes it. -/
def splitextExt (p : String) : String :=
  let cs := p.data
  let sepIndex := rfindI cs '/'
  let dotIndex := rfindI cs '.'
  if sepIndex < dotIndex then
    let filenameIndex := (sepIndex + 1).toNat
    let dotN := dotIndex.toNat
    if ((cs.drop filenameIndex).take (dotN - filenameIndex)).any (fun c => c ≠ '.') then
      String.mk (cs.drop dotN)
    else ""
  else ""

/-- `detect_language` from symbol_patterns.py: `EXTENSION_MAP.get(ext.lower())`. -/
def detect_language (file_path : String) : Option Language :=
  (EXTENSION_MAP.find? (fun kv => kv.1 == lcStr (splitextExt file_path))).map (fun kv => kv.2)

/-!
## SymbolExtractor (symbol_validator.py)
-/

/-- `content.split('\n')` (structural implementation; agrees with Python's
`str.split` on a one-character separator: `"" ↦ [""]`, a trailing newline
yields a trailing empty line). -/
def splitLines (s : String) : List String :=
  go s.data []
where
  go : List Char → List Char → List String
    | [], acc => [String.mk acc.reverse]
    | c :: cs, acc =>
      if c = '\n' then String.mk acc.reverse :: go cs []
      else go cs (c :: acc)

/-- Python `str.strip()` on ASCII text. -/
def stripWs (s : String) : String :=
  String.mk (((s.data.dropWhile spaceChar).reverse.dropWhile spaceChar).reverse)

/-- Non-overlapping substring count, scanning left to right (`str.count`). -/
def countSub (s : List Char) (sub : List Char) : Nat :=
  go (s.length + 1) 0
where
  go : Nat → Nat → Nat
    | 0, _ => 0
    | fuel + 1, pos =>
      if pos > s.length then 0
      else if litAt s pos sub then 1 + go fuel (pos + sub.length)
      else go fuel (pos + 1)

/-- Does `sub` occur in `s`? (Python `sub in s`.) -/
def hasSub (s : List Char) (sub : List Char) : Bool := countSub s sub > 0

/-- `'"""'`. -/
def tripleDQ : List Char := ['"', '"', '"']

/-- Three single quotes. -/
def tripleSQ : List Char := [squote, squote, squote]

/-- The Python branch of `SymbolExtractor._find_docstring_lines`: a scanner over
the lines tracking whether a triple-quoted docstring is open and with which
quote style.  The inner `for quote in ['\"\"\"', ...]` loop considering the
double-quote marker first, acting only on the first marker with a positive
count, and `break`-ing afterwards (so that a line containing only the *other*
marker while a docstring is open is neither recorded nor closes the
docstring) is reproduced branch for branch. -/
def pyDocstringScan : List (Nat × String) → Option (List Char) → List Nat
  | [], _ => []
  | (ln, line) :: rest, state =>
    let l := line.data
    let cntD := countSub l tripleDQ
    let cntS := countSub l tripleSQ
    if cntD > 0 then
      match state with
      | none =>
        if cntD ≥ 2 then ln :: pyDocstringScan rest none
        else ln :: pyDocstringScan rest (some tripleDQ)
      | some q =>
        if q = tripleDQ then ln :: pyDocstringScan rest none
        else pyDocstringScan rest state
    else if cntS > 0 then
      match state with
      | none =>
        if cntS ≥ 2 then ln :: pyDocstringScan rest none
        else ln :: pyDocstringScan rest (some tripleSQ)
      | some q =>
        if q = tripleSQ then ln :: pyDocstringScan rest none
        else pyDocstringScan rest state
    else
      match state with
      | none => pyDocstringScan rest none
      | some _ => ln :: pyDocstringScan rest state

/-- The C-style branch of `_find_docstring_lines`: the two-state `/* ... */`
scanner. -/
def cCommentScan : List (Nat × String) → Bool → List Nat
  | [], _ => []
  | (ln, line) :: rest, inC =>
    let l := line.data
    if inC then
      ln :: cCommentScan rest (!hasSub l "*/".data)
    else if hasSub l "/*".data then
      ln :: cCommentScan rest (!hasSub l "*/".data)
    else
      cCommentScan rest false

/-- `SymbolExtractor._find_docstring_lines`: the 1-based line numbers lying
inside a multi-line comment or docstring block. -/
def find_docstring_lines (content : String) (lang : Language) : List Nat :=
  match lang with
  | .python => pyDocstringScan (List.enumFrom 1 (splitLines content)) none
  | _ => cCommentScan (List.enumFrom 1 (splitLines content)) false

/-- Python `str.startswith` (structural prefix test). -/
def strStarts (s pre : String) : Bool := litAt s.data 0 pre.data

/-- `SymbolExtractor._is_comment_line`. -/
def is_comment_line (line : String) (lang : Language) : Bool :=
  let stripped := stripWs line
  if stripped = "" then true
  else
    (decide (lang ≠ Language.python) &&
      (strStarts stripped "//" || strStarts stripped "/*" || strStarts stripped "*"))
    || ((lang == Language.php || lang == Language.python) && strStarts stripped "#")

/-- The keywords set of SymbolExtractor._is_valid_symbol (symbol_validator.py): true reserved words, compared against name.lower(). -/
def trueKeywords : List String :=
  ["if", "else", "elseif", "elif", "for", "while", "do", "switch", "case", "break", "continue",
   "return", "yield", "try", "catch", "finally", "throw", "throws", "raise", "class", "interface",
   "trait", "struct", "enum", "function", "fn", "func", "def", "const", "let", "var", "static",
   "async", "await", "public", "private", "protected", "internal", "final", "abstract", "virtual",
   "override", "true", "false", "null", "nil", "None", "undefined", "void", "int", "float",
   "double", "bool", "boolean", "this", "self", "super", "import", "export", "default", "use",
   "namespace", "package", "module", "mod", "pub", "crate", "impl", "loop", "move", "mut", "ref",
   "unsafe", "extern", "dyn", "box", "go", "defer", "chan", "select", "range", "type"]

/-- `SymbolExtractor._is_valid_symbol`: rejects names shorter than two
characters and names whose lower-cased form lies in the shared keyword set.
The `lang` parameter is accepted and ignored, as in the source. -/
def is_valid_symbol (name : String) (_lang : Language) : Bool :=
  if name.length < 2 then false
  else !(trueKeywords.contains (lcStr name))

/-- The double-quote stripping pattern of `_strip_string_contents`:
`(?<![f$])"([^"{\\]|\\.)*"`. -/
def dqStripRe : Re :=
  .seq [.nlb (fun c => c = 'f' || c = '$'), .lit '"',
    .star (.alt (.cls (fun c => c ≠ '"' && c ≠ '\x7b' && c ≠ bslash))
      (.cat (.lit bslash) (.cls (fun c => c ≠ '\n')))), .lit '"']

/-- Python-only single-quote pattern `(?<!f)'([^'{\\]|\\.)*'`. -/
def sqStripPyRe : Re :=
  .seq [.nlb (fun c => c = 'f'), .lit squote,
    .star (.alt (.cls (fun c => c ≠ squote && c ≠ '\x7b' && c ≠ bslash))
      (.cat (.lit bslash) (.cls (fun c => c ≠ '\n')))), .lit squote]

/-- Single-quote pattern for the other languages: `'([^'\\]|\\.)*'`. -/
def sqStripRe : Re :=
  .seq [.lit squote,
    .star (.alt (.cls (fun c => c ≠ squote && c ≠ bslash))
      (.cat (.lit bslash) (.cls (fun c => c ≠ '\n')))), .lit squote]

/-- Template-literal pattern for JavaScript/TypeScript: a backtick string
without `$` or backtick inside. -/
def btStripRe : Re :=
  .seq [.lit btick, .star (.cls (fun c => c ≠ btick && c ≠ '$')), .lit btick]

/-- `SymbolExtractor._strip_string_contents`: blank the contents of ordinary
string literals, preserving interpolated forms (f-strings, `$`-strings,
template literals containing `$`). -/
def strip_string_contents (line : String) (lang : Language) : String :=
  let l1 := Re.subAll dqStripRe ['"', '"'] line.data
  let l2 :=
    if lang = Language.python then Re.subAll sqStripPyRe [squote, squote] l1
    else Re.subAll sqStripRe [squote, squote] l1
  let l3 :=
    if lang = Language.javascript || lang = Language.typescript then
      Re.subAll btStripRe [btick, btick] l2
    else l2
  String.mk l3

/-- The names captured on one (already string-stripped) line by the call
patterns of `lang`, in pattern order and match order, filtered by
`if name and self._is_valid_symbol(name, lang)`. -/
def lineCallNames (lang : Language) (line : List Char) : List String :=
  (CALL_PATTERNS lang).flatMap (fun p =>
    (Re.captures p line).filter (fun n => n ≠ "" && is_valid_symbol n lang))

/-- The stream of `(name, line)` pairs produced by the nested loops of
`extract_calls` before deduplication: lines inside docstring blocks and
whole-line comments are skipped, string contents are stripped, and each
pattern's captures are collected in order. -/
def callEvents (content : String) (lang : Language) : List (String × Nat) :=
  let skip := find_docstring_lines content lang
  (List.enumFrom 1 (splitLines content)).flatMap (fun p =>
    if skip.contains p.1 || is_comment_line p.2 lang then []
    else (lineCallNames lang (strip_string_contents p.2 lang).data).map (fun n => (n, p.1)))

/-- The `seen`-set deduplication of `extract_calls`: keep each `(name, line)`
pair the first time it appears. -/
def dedupSeen : List (String × Nat) → List (String × Nat) → List (String × Nat)
  | _, [] => []
  | seen, x :: xs =>
    if seen.contains x then dedupSeen seen xs
    else x :: dedupSeen (x :: seen) xs

/-- `SymbolExtractor.extract_calls`:  `(name, line)` pairs, deduplicated, in
first-occurrence order. -/
def extract_calls (content : String) (lang : Language) : List (String × Nat) :=
  dedupSeen [] (callEvents content lang)

/-- `SymbolExtractor.extract_definitions`: definition-pattern captures over the
whole content (not line-restricted).  The Python function returns a `set` used
only through membership; the collected names are kept as a list. -/
def extract_definitions (content : String) (lang : Language) : List String :=
  (DEFINITION_PATTERNS lang).flatMap (fun p =>
    (Re.captures p content.data).filter (fun n => n ≠ "" && is_valid_symbol n lang))

/-- `SymbolExtractor.extract_properties`: property-pattern captures on
non-comment lines (no docstring filtering, no string stripping, no
deduplication, matching the source). -/
def extract_properties (content : String) (lang : Language) : List (String × Nat) :=
  (List.enumFrom 1 (splitLines content)).flatMap (fun p =>
    if is_comment_line p.2 lang then []
    else (PROPERTY_PATTERNS lang).flatMap (fun pat =>
      ((Re.captures pat p.2.data).filter (fun n => n ≠ "" && is_valid_symbol n lang)).map
        (fun n => (n, p.1))))

/-!
## ConfidenceCalculator (symbol_validator.py)

Confidence arithmetic is modelled over `ℚ`.
-/

/-- Per-language import patterns of `ConfidenceCalculator._has_many_imports`. -/
def importPat : Language → Re
  | .php => .seq [.str "use".data, sp1, .plus (.cls wordChar)]
  | .javascript => .seq [.alt (.str "import".data) (.str "require".data), sp0, .opt (.lit '(')]
  | .typescript => .seq [.alt (.str "import".data) (.str "require".data), sp0, .opt (.lit '(')]
  | .python => .seq [.alt (.str "import".data) (.str "from".data), sp1, .plus (.cls wordChar)]
  | .csharp => .seq [.str "using".data, sp1, .plus (.cls wordChar)]
  | .go => .cat (.str "import".data) sp1
  | .rust => .seq [.str "use".data, sp1, .plus (.cls wordChar)]

/-- `_has_many_imports`: more than five matches of the language's import
pattern (the dictionary lookup always succeeds for the seven languages). -/
def has_many_imports (content : String) (lang : Language) : Bool :=
  Re.countMatches (importPat lang) content.data > 5

/-- Does `r` match at the very start of `s`?  This is `re.match(pattern, s)`
used as a boolean (anchored at position 0, *not* a search). -/
def matchStart (r : Re) (s : String) : Bool := (Re.matchAt r s.data 0).isSome

/-- The patterns of `_looks_like_external`, each applied with `re.match` (so
the `Async$`-style patterns only match when the whole name *is* that word —
anchoring at the start is what the source does, suffix semantics are not). -/
def externalNamePats : List Re :=
  [.cat (.str "get".data) (.cls upperAlpha), .cat (.str "set".data) (.cls upperAlpha),
   .cat (.str "is".data) (.cls upperAlpha), .cat (.str "has".data) (.cls upperAlpha),
   .cat (.str "on".data) (.cls upperAlpha), .cat (.str "handle".data) (.cls upperAlpha),
   .cat (.str "fetch".data) (.cls upperAlpha),
   .cat (.str "Async".data) Re.eos, .cat (.str "Sync".data) Re.eos,
   .cat (.str "Callback".data) Re.eos, .cat (.str "Handler".data) Re.eos]

/-- `_looks_like_external` (the `lang` parameter is ignored, as in the source). -/
def looks_like_external (name : String) (_lang : Language) : Bool :=
  externalNamePats.any (fun p => matchStart p name)

/-- The alternatives of the five `^(...)` prefix regexes of
`_is_common_pattern`, which are matched with `re.match(..., re.IGNORECASE)`;
over these all-lowercase literal alternatives that is exactly a
case-insensitive prefix test. -/
def commonPatternWords : List String :=
  ["get", "set", "is", "has", "can", "should", "will", "did", "on", "before", "after",
   "create", "update", "delete", "find", "fetch", "load", "save", "store",
   "handle", "process", "execute", "perform", "run", "start", "stop",
   "init", "setup", "configure", "validate", "transform", "convert",
   "add", "remove", "clear", "reset", "enable", "disable"]

/-- `_is_common_pattern`. -/
def is_common_pattern (name : String) : Bool :=
  commonPatternWords.any (fun p => strStarts (lcStr name) p)

/-- `^[a-z]+[A-Z]` anchored (`re.match`). -/
def camelStartRe : Re := .cat (.plus (.cls lowerAlpha)) (.cls upperAlpha)

/-- `_naming_convention_mismatch`. -/
def naming_convention_mismatch (name : String) (lang : Language) : Bool :=
  ((lang == Language.python || lang == Language.rust || lang == Language.go) &&
    matchStart camelStartRe name)
  || ((lang == Language.php || lang == Language.javascript || lang == Language.typescript ||
      lang == Language.csharp) &&
    (name.data.contains '_' && !strStarts name "_"))

/-- `ConfidenceCalculator.calculate`: starts at 1.0, applies the eight
adjustments in source order, clamps to `[0.1, 1.0]`.  `similar_names` is
accepted and unused, as in the source. -/
def calculate (name : String) (lang : Language) (file_content : String)
    (has_similar : Bool) (_similar_names : List String) : ℚ :=
  let confidence : ℚ := 1
  let confidence := if is_common_external name then confidence - 0.3 else confidence
  let confidence := if has_many_imports file_content lang then confidence - 0.15 else confidence
  let confidence := if has_dynamic_patterns file_content lang then confidence - 0.25
    else confidence
  let confidence := if has_similar then confidence + 0.1 else confidence
  let confidence := if name.length ≤ 3 then confidence - 0.2 else confidence
  let confidence := if looks_like_external name lang then confidence - 0.2 else confidence
  let confidence := if is_common_pattern name then confidence - 0.15 else confidence
  let confidence := if naming_convention_mismatch name lang then confidence - 0.1
    else confidence
  max 0.1 (min 1 confidence)

/-!
## Data classes and validator (symbol_validator.py)
-/

/-- `SymbolIssue` dataclass (confidence over `ℚ`). -/
structure SymbolIssue where
  name : String
  file : String
  line : Nat
  confidence : ℚ
  match_type : String
  context : String
  suggestions : List String
  reason : String
deriving DecidableEq, Repr

/-- Derived `SymbolIssue.severity` view. -/
def SymbolIssue.severity (i : SymbolIssue) : String :=
  if i.confidence > 0.8 then "HIGH"
  else if i.confidence > 0.5 then "MEDIUM"
  else "LOW"

/-- `SymbolValidationMode` enum. -/
inductive SymbolValidationMode where
  | off
  | warn
  | strict
  | adaptive
deriving DecidableEq, Repr

/-- `ValidationResult` dataclass. -/
structure ValidationResult where
  issues : List SymbolIssue
  confidence : ℚ
  should_block : Bool
deriving DecidableEq, Repr

/-- `SymbolValidator.validate` (the classmethod entry point).  The process-wide
`cls._global_mode` read at the start is passed explicitly as `mode`;
`known_symbols or set()` is the `known_symbols` list. -/
def SymbolValidator.validate (mode : SymbolValidationMode) (code : String)
    (file_path : String) (known_symbols : List String) : ValidationResult :=
  if mode = SymbolValidationMode.off then ⟨[], 0, false⟩
  else
    match detect_language file_path with
    | none => ⟨[], 0, false⟩
    | some lang =>
      let calls := extract_calls code lang
      let local_definitions := extract_definitions code lang
      let all_known := known_symbols ++ local_definitions
      let issues := calls.filterMap (fun c =>
        if is_builtin c.1 lang then none
        else if all_known.contains c.1 then none
        else if is_common_external c.1 then none
        else
          let has_dynamic := has_dynamic_patterns code lang
          let conf := calculate c.1 lang code false []
          let conf := if has_dynamic then conf * 0.5 else conf
          let ls := splitLines code
          let context := if 0 < c.2 && c.2 ≤ ls.length then stripWs (ls.getD (c.2 - 1) "")
            else ""
          some ⟨c.1, file_path, c.2, conf, "call", context, [], "Symbol not found in codebase"⟩)
      let max_confidence := issues.foldl (fun m i => max m i.confidence) 0
      let blk := (mode == SymbolValidationMode.strict)
        && decide (max_confidence > (0.9 : ℚ))
        && decide ((issues.filter (fun i => decide (i.confidence > (0.8 : ℚ)))).length ≥ 5)
      ⟨issues, max_confidence, blk⟩

/-- `SymbolValidator._check_symbol`, the per-name step of the file-scanning
entry point `validate_file`.  The instance state (`whitelist`,
`session_symbols`) and the precomputed definition sets are explicit
arguments.  `find_similar` abstracts `self._find_similar(name,
all_definitions)`, which ranks names of `all_definitions` by
`difflib.SequenceMatcher` ratio — difflib is Python-stdlib, outside this
repository, so the similarity ranking is a parameter here; every theorem
below quantifies over it. -/
def SymbolValidator.check_symbol (whitelist session_symbols : List String)
    (all_definitions local_definitions : List String)
    (find_similar : String → List String)
    (name : String) (line : Nat) (file_path : String) (match_type : String)
    (lang : Language) (content : String) : Option SymbolIssue :=
  if is_builtin name lang then none
  else if whitelist.contains name then none
  else if session_symbols.contains name then none
  else if local_definitions.contains name then none
  else if all_definitions.contains name then none
  else
    let similar_names := find_similar name
    let has_similar := similar_names.length > 0
    let conf := calculate name lang content has_similar similar_names
    let ls := splitLines content
    let context := if 0 < line && line ≤ ls.length then stripWs (ls.getD (line - 1) "") else ""
    let reason :=
      if has_similar then
        "Possibly misspelled. Similar: " ++ String.intercalate ", " (similar_names.take 3)
      else "Symbol not found in codebase"
    some ⟨name, file_path, line, conf, match_type, context, similar_names.take 5, reason⟩

/-- `AdaptiveSymbolValidation.should_block`: OFF/WARN/ADAPTIVE never block;
STRICT blocks iff at least five issues have confidence strictly above 0.9. -/
def AdaptiveSymbolValidation.should_block (issues : List SymbolIssue)
    (mode : SymbolValidationMode) : Bool :=
  if mode = SymbolValidationMode.off || mode = SymbolValidationMode.warn ||
      mode = SymbolValidationMode.adaptive then false
  else if mode = SymbolValidationMode.strict then
    decide ((issues.filter (fun i => decide (i.confidence > (0.9 : ℚ)))).length ≥ 5)
  else false

/-- The keep-the-first-occurrence deduplication, written the way the spec
describes the output order ("deduplicated by (name, line) pair, in
first-occurrence order"). -/
def firstOccurDedup : List (String × Nat) → List (String × Nat)
  | [] => []
  | x :: xs => x :: firstOccurDedup (xs.filter (fun y => decide (y ≠ x)))
termination_by l => l.length
decreasing_by
  simp only [List.length_cons]
  exact Nat.lt_succ_of_le (List.length_filter_le _ _)

/-!
## Example inputs used by counterexamples and witnesses
-/

/-- Five unresolved Python calls: one with no confidence adjustment (1.0) and
four camelCase ones (0.9 each after the naming-convention adjustment). -/
def exA : String := "zibzab()\nzibZab()\nqorZab()\nmivZab()\nwuxZab()"

/-- Six imports (more than five), a dynamic pattern (`eval(`), and one
unresolved call `onX` hitting the short-name, external-looking,
common-pattern and naming-mismatch adjustments. -/
def exB : String := "import a\nimport b\nimport c\nimport d\nimport e\nimport f\neval(x)\nonX(y)"

/-- A Python `def` on line 2, which lies inside a triple-quoted docstring. -/
def exDoc : String := "\"\"\"\ndef foo():\n\"\"\""

/-- The issue produced by `validate` on the snippet `"zorp()"`. -/
def zIssue : SymbolIssue :=
  ⟨"zorp", "w.py", 1, 1, "call", "zorp()", [], "Symbol not found in codebase"⟩

/-!
## Auxiliary lemmas
-/

theorem ite_sub_shift (c : Prop) [Decidable c] (x d : ℚ) :
    (if c then x - d else x) = x + (if c then -d else 0) := by
  split <;> ring

theorem ite_add_shift (c : Prop) [Decidable c] (x d : ℚ) :
    (if c then x + d else x) = x + (if c then d else 0) := by
  split <;> ring

/-- `calculate` rewritten as the clamp of 1 plus a sum of independent
conditional adjustments. -/
theorem calculate_eq_clamp_sum (name : String) (lang : Language) (content : String)
    (hs : Bool) (sn : List String) :
    calculate name lang content hs sn =
      max 0.1 (min 1 ((1 : ℚ)
        + (if is_common_external name then (-0.3 : ℚ) else 0)
        + (if has_many_imports content lang then (-0.15 : ℚ) else 0)
        + (if has_dynamic_patterns content lang then (-0.25 : ℚ) else 0)
        + (if hs then (0.1 : ℚ) else 0)
        + (if name.length ≤ 3 then (-0.2 : ℚ) else 0)
        + (if looks_like_external name lang then (-0.2 : ℚ) else 0)
        + (if is_common_pattern name then (-0.15 : ℚ) else 0)
        + (if naming_convention_mismatch name lang then (-0.1 : ℚ) else 0))) := by
  simp only [calculate, ite_sub_shift, ite_add_shift]

theorem calculate_ge (name : String) (lang : Language) (content : String)
    (hs : Bool) (sn : List String) :
    (0.1 : ℚ) ≤ calculate name lang content hs sn := by
  unfold calculate
  exact le_max_left _ _

theorem calculate_le (name : String) (lang : Language) (content : String)
    (hs : Bool) (sn : List String) :
    calculate name lang content hs sn ≤ 1 := by
  unfold calculate
  exact max_le (by norm_num) (min_le_left _ _)

/-- Everything `dedupSeen` emits comes from the input stream. -/
theorem dedupSeen_subset : ∀ (l seen : List (String × Nat)) (x : String × Nat),
    x ∈ dedupSeen seen l → x ∈ l := by
  intro l
  induction l with
  | nil => intro seen x h; simp [dedupSeen] at h
  | cons a l ih =>
    intro seen x h
    simp only [dedupSeen] at h
    by_cases hc : seen.contains a = true
    · rw [if_pos hc] at h
      exact List.mem_cons_of_mem _ (ih seen x h)
    · rw [if_neg hc] at h
      rcases List.mem_cons.mp h with rfl | h2
      · exact List.mem_cons_self _ _
      · exact List.mem_cons_of_mem _ (ih _ x h2)

/-- Nothing `dedupSeen` emits was already in `seen`. -/
theorem dedupSeen_not_seen : ∀ (l seen : List (String × Nat)) (x : String × Nat),
    x ∈ dedupSeen seen l → seen.contains x = false := by
  intro l
  induction l with
  | nil => intro seen x h; simp [dedupSeen] at h
  | cons a l ih =>
    intro seen x h
    simp only [dedupSeen] at h
    by_cases hc : seen.contains a = true
    · rw [if_pos hc] at h
      exact ih seen x h
    · rw [if_neg hc] at h
      rcases List.mem_cons.mp h with rfl | h2
      · exact Bool.eq_false_iff.mpr hc
      · have h3 := ih (a :: seen) x h2
        simp only [List.contains_cons, Bool.or_eq_false_iff] at h3
        exact h3.2

/-- `dedupSeen` emits no duplicates. -/
theorem dedupSeen_nodup : ∀ (l seen : List (String × Nat)), (dedupSeen seen l).Nodup := by
  intro l
  induction l with
  | nil => intro seen; simp [dedupSeen]
  | cons a l ih =>
    intro seen
    simp only [dedupSeen]
    by_cases hc : seen.contains a = true
    · rw [if_pos hc]; exact ih seen
    · rw [if_neg hc]
      refine List.nodup_cons.mpr ⟨?_, ih (a :: seen)⟩
      intro hmem
      have h3 := dedupSeen_not_seen l (a :: seen) a hmem
      simp [List.contains_cons] at h3

/-- The `seen`-set loop equals filtering the already-seen pairs away and then
keeping first occurrences. -/
theorem dedupSeen_eq_firstOccur : ∀ (l seen : List (String × Nat)),
    dedupSeen seen l = firstOccurDedup (l.filter (fun x => !seen.contains x)) := by
  intro l
  induction l with
  | nil => intro seen; simp [dedupSeen, firstOccurDedup]
  | cons a l ih =>
    intro seen
    simp only [dedupSeen, List.filter_cons]
    by_cases hc : seen.contains a = true
    · rw [if_pos hc]
      simp only [hc, Bool.not_true, if_neg (by simp : ¬ (false = true))]
      exact ih seen
    · rw [if_neg hc]
      have hcf : seen.contains a = false := Bool.eq_false_iff.mpr hc
      simp only [hcf, Bool.not_false, if_pos rfl]
      rw [firstOccurDedup.eq_def]
      congr 1
      rw [List.filter_filter, ih (a :: seen)]
      congr 1
      apply List.filter_congr
      intro x _
      simp [List.contains_cons, Bool.and_comm, decide_not]

/-- Indices produced by `List.enumFrom` are at least the start index. -/
theorem enumFrom_fst_le : ∀ (l : List String) (n : Nat) (p : Nat × String),
    p ∈ List.enumFrom n l → n ≤ p.1 := by
  intro l
  induction l with
  | nil => intro n p h; simp [List.enumFrom] at h
  | cons a l ih =>
    intro n p h
    rcases List.mem_cons.mp h with rfl | h2
    · exact Nat.le_refl n
    · exact Nat.le_of_succ_le (ih (n + 1) p h2)

/-- A member of `List.enumFrom n l` is the list entry at its index. -/
theorem enumFrom_getD : ∀ (l : List String) (n : Nat) (p : Nat × String) (d : String),
    p ∈ List.enumFrom n l → l.getD (p.1 - n) d = p.2 := by
  intro l
  induction l with
  | nil => intro n p d h; simp [List.enumFrom] at h
  | cons a l ih =>
    intro n p d h
    rcases List.mem_cons.mp h with rfl | h2
    · simp
    · have h1 : n + 1 ≤ p.1 := enumFrom_fst_le l (n + 1) p h2
      have h2' := ih (n + 1) p d h2
      have : p.1 - n = (p.1 - (n + 1)) + 1 := by omega
      rw [this]
      simpa using h2'

/-- What membership in the raw call-event stream implies: the line is not
inside a docstring/multi-line-comment block, is not a comment line, and the
name comes from the call patterns applied to the string-stripped line. -/
theorem mem_callEvents {content : String} {lang : Language} {name : String} {ln : Nat}
    (h : (name, ln) ∈ callEvents content lang) :
    (find_docstring_lines content lang).contains ln = false ∧
    is_comment_line ((splitLines content).getD (ln - 1) "") lang = false ∧
    name ∈ lineCallNames lang
      (strip_string_contents ((splitLines content).getD (ln - 1) "") lang).data := by
  unfold callEvents at h
  rw [List.mem_flatMap] at h
  obtain ⟨p, hp, hmem⟩ := h
  by_cases hg : ((find_docstring_lines content lang).contains p.1
      || is_comment_line p.2 lang) = true
  · rw [if_pos (by simpa using hg)] at hmem
    simp at hmem
  · rw [if_neg (by simpa using hg)] at hmem
    simp only [Bool.or_eq_true, not_or] at hg
    rw [List.mem_map] at hmem
    obtain ⟨n', hn', heq⟩ := hmem
    have hname : n' = name := congrArg Prod.fst heq
    have hln : p.1 = ln := congrArg Prod.snd heq
    have hline : (splitLines content).getD (ln - 1) "" = p.2 := by
      rw [← hln]
      exact enumFrom_getD (splitLines content) 1 p "" hp
    subst hname
    constructor
    · rw [← hln]; exact Bool.eq_false_iff.mpr (fun hx => hg.1 hx)
    constructor
    · rw [hline]; exact Bool.eq_false_iff.mpr (fun hx => hg.2 hx)
    · rw [hline]; exact hn'

/-- Membership in the issues of `SymbolValidator.validate`, unfolded: the name
comes from an extracted call, every skip guard was false, and the confidence
is the (possibly halved) calculator output. -/
theorem mem_validate_issues {mode : SymbolValidationMode} {code fp : String}
    {ks : List String} {i : SymbolIssue}
    (h : i ∈ (SymbolValidator.validate mode code fp ks).issues) :
    ∃ lang, detect_language fp = some lang ∧
    ∃ c : String × Nat, c ∈ extract_calls code lang ∧
      i.name = c.1 ∧
      is_builtin c.1 lang = false ∧
      (ks ++ extract_definitions code lang).contains c.1 = false ∧
      is_common_external c.1 = false ∧
      i.confidence = (if has_dynamic_patterns code lang
        then calculate c.1 lang code false [] * 0.5
        else calculate c.1 lang code false []) := by
  unfold SymbolValidator.validate at h
  by_cases hmode : mode = SymbolValidationMode.off
  · rw [if_pos hmode] at h
    simp at h
  · rw [if_neg hmode] at h
    cases hdet : detect_language fp with
    | none => rw [hdet] at h; simp at h
    | some lang =>
      rw [hdet] at h
      simp only [List.mem_filterMap] at h
      obtain ⟨c, hc, hsome⟩ := h
      refine ⟨lang, rfl, c, hc, ?_⟩
      by_cases h1 : is_builtin c.1 lang = true
      · rw [if_pos h1] at hsome; cases hsome
      · rw [if_neg h1] at hsome
        by_cases h2 : (ks ++ extract_definitions code lang).contains c.1 = true
        · rw [if_pos h2] at hsome; cases hsome
        · rw [if_neg h2] at hsome
          by_cases h3 : is_common_external c.1 = true
          · rw [if_pos h3] at hsome; cases hsome
          · rw [if_neg h3] at hsome
            cases hsome
            exact ⟨rfl, Bool.eq_false_iff.mpr h1, Bool.eq_false_iff.mpr h2,
              Bool.eq_false_iff.mpr h3, rfl⟩

/-- The running maximum in `validate` dominates the starting value. -/
theorem foldl_max_ge_init (l : List SymbolIssue) : ∀ (a : ℚ),
    a ≤ l.foldl (fun m i => max m i.confidence) a := by
  induction l with
  | nil => intro a; simp
  | cons x l ih =>
    intro a
    exact le_trans (le_max_left _ _) (ih (max a x.confidence))

/-- The running maximum in `validate` dominates every element. -/
theorem foldl_max_ge_mem (l : List SymbolIssue) : ∀ (a : ℚ) (i : SymbolIssue), i ∈ l →
    i.confidence ≤ l.foldl (fun m i => max m i.confidence) a := by
  induction l with
  | nil => intro a i h; simp at h
  | cons x l ih =>
    intro a i h
    rcases List.mem_cons.mp h with rfl | h2
    · exact le_trans (le_max_right _ _) (foldl_max_ge_init l _)
    · exact ih _ i h2


/-- The result confidence of `validate` is the running maximum over its
issues. -/
theorem validate_confidence_eq (mode : SymbolValidationMode) (code fp : String)
    (ks : List String) :
    (SymbolValidator.validate mode code fp ks).confidence =
      ((SymbolValidator.validate mode code fp ks).issues).foldl
        (fun m i => max m i.confidence) 0 := by
  unfold SymbolValidator.validate
  by_cases hmode : mode = SymbolValidationMode.off
  · rw [if_pos hmode]
    rfl
  · rw [if_neg hmode]
    cases detect_language fp with
    | none => rfl
    | some lang => rfl

/-!
## Claim C1
-/

/-- Claim C1 counterexample: on `exA` under mode STRICT, `validate` sets
`should_block = true` although only one issue has confidence strictly above
0.9 — the code requires five issues above 0.8 together with a maximum above
0.9, not five issues above 0.9 as the claim states. -/
theorem c1_counterexample :
    (SymbolValidator.validate SymbolValidationMode.strict exA "app.py" []).should_block = true ∧
    ((SymbolValidator.validate SymbolValidationMode.strict exA "app.py" []).issues.filter
      (fun i => decide (i.confidence > (0.9 : ℚ)))).length = 1 := by
  with_unfolding_all decide

/-- Claim C1, amended: `SymbolValidator.validate` blocks iff the mode is
STRICT, the maximum confidence exceeds 0.9 and at least five issues have
confidence strictly above 0.8; `AdaptiveSymbolValidation.should_block` blocks
iff the mode is STRICT and at least five issues have confidence strictly
above 0.9 (so only in STRICT can either ever block). -/
theorem c1_theorem :
    (∀ (mode : SymbolValidationMode) (code fp : String) (ks : List String),
      ((SymbolValidator.validate mode code fp ks).should_block = true ↔
        (mode = SymbolValidationMode.strict ∧
         (SymbolValidator.validate mode code fp ks).confidence > (0.9 : ℚ) ∧
         ((SymbolValidator.validate mode code fp ks).issues.filter
            (fun i => decide (i.confidence > (0.8 : ℚ)))).length ≥ 5)))
  ∧ (∀ (issues : List SymbolIssue) (mode : SymbolValidationMode),
      (AdaptiveSymbolValidation.should_block issues mode = true ↔
        (mode = SymbolValidationMode.strict ∧
         (issues.filter (fun i => decide (i.confidence > (0.9 : ℚ)))).length ≥ 5))) := by
  constructor
  · intro mode code fp ks
    unfold SymbolValidator.validate
    by_cases hmode : mode = SymbolValidationMode.off
    · subst hmode
      simp
    · rw [if_neg hmode]
      cases hdet : detect_language fp with
      | none =>
        simp only []
        constructor
        · intro h; cases h
        · rintro ⟨-, h, -⟩
          norm_num at h
      | some lang =>
        simp only [Bool.and_eq_true, beq_iff_eq, decide_eq_true_eq]
        tauto
  · intro issues mode
    unfold AdaptiveSymbolValidation.should_block
    cases mode <;> simp

/-!
## Claim C2
-/

/-- Claim C2 counterexample: on `exB` the single issue (`onX`) has confidence
1/20 = 0.05, outside the claimed interval [0.1, 1.0] — the halving for
dynamic patterns happens after the clamp. -/
theorem c2_counterexample :
    ((SymbolValidator.validate SymbolValidationMode.warn exB "m.py" []).issues.map
      (fun i => i.confidence)) = [1/20] ∧ ¬ ((0.1 : ℚ) ≤ 1/20) := by
  constructor
  · with_unfolding_all decide
  · norm_num

/-- Claim C2, amended: every issue confidence of `validate` lies in
[0.05, 1.0]; it lies in [0.1, 1.0] whenever the code has no dynamic patterns
for its language (the clamp is to [0.1, 1.0] and only the subsequent halving
can go below 0.1); and the result confidence is positive whenever there is at
least one issue. -/
theorem c2_theorem :
    (∀ (mode : SymbolValidationMode) (code fp : String) (ks : List String)
       (i : SymbolIssue), i ∈ (SymbolValidator.validate mode code fp ks).issues →
         ((1/20 : ℚ) ≤ i.confidence ∧ i.confidence ≤ 1) ∧
         (∀ lang, detect_language fp = some lang →
            has_dynamic_patterns code lang = false → (0.1 : ℚ) ≤ i.confidence))
  ∧ (∀ (mode : SymbolValidationMode) (code fp : String) (ks : List String),
      (SymbolValidator.validate mode code fp ks).issues ≠ [] →
        0 < (SymbolValidator.validate mode code fp ks).confidence) := by
  have key : ∀ (mode : SymbolValidationMode) (code fp : String) (ks : List String)
      (i : SymbolIssue), i ∈ (SymbolValidator.validate mode code fp ks).issues →
        ((1/20 : ℚ) ≤ i.confidence ∧ i.confidence ≤ 1) ∧
        (∀ lang, detect_language fp = some lang →
           has_dynamic_patterns code lang = false → (0.1 : ℚ) ≤ i.confidence) := by
    intro mode code fp ks i hi
    obtain ⟨lang, hdet, c, _, _, _, _, _, hconf⟩ := mem_validate_issues hi
    have hg := calculate_ge c.1 lang code false []
    have hl := calculate_le c.1 lang code false []
    constructor
    · rw [hconf]
      split
      · constructor
        · nlinarith
        · nlinarith
      · constructor
        · linarith [(by norm_num : (1/20 : ℚ) ≤ 0.1)]
        · exact hl
    · intro lang' hdet' hdyn
      rw [hdet] at hdet'
      injection hdet' with he
      subst he
      rw [hconf, if_neg (by simp [hdyn])]
      exact hg
  refine ⟨key, ?_⟩
  intro mode code fp ks hne
  obtain ⟨i, hi⟩ := List.exists_mem_of_ne_nil _ hne
  have h1 := (key mode code fp ks i hi).1.1
  have h2 : i.confidence ≤ (SymbolValidator.validate mode code fp ks).confidence := by
    rw [validate_confidence_eq]
    exact foldl_max_ge_mem _ 0 i hi
  linarith [(by norm_num : (0 : ℚ) < 1/20)]

/-- Claim C2 witness: a concrete issue within the bounds of the amended
claim. -/
theorem c2_witness :
    zIssue ∈ (SymbolValidator.validate SymbolValidationMode.warn "zorp()" "w.py" []).issues ∧
    ((1/20 : ℚ) ≤ zIssue.confidence ∧ zIssue.confidence ≤ 1) ∧
    (0.1 : ℚ) ≤ zIssue.confidence ∧
    0 < (SymbolValidator.validate SymbolValidationMode.warn "zorp()" "w.py" []).confidence := by
  have hmem : zIssue ∈
      (SymbolValidator.validate SymbolValidationMode.warn "zorp()" "w.py" []).issues := by
    with_unfolding_all decide
  have h1 := c2_theorem.1 SymbolValidationMode.warn "zorp()" "w.py" [] zIssue hmem
  refine ⟨hmem, h1.1, h1.2 Language.python (by decide) (by decide), ?_⟩
  exact c2_theorem.2 SymbolValidationMode.warn "zorp()" "w.py" []
    (by with_unfolding_all decide)

/-!
## Claim C3
-/

/-- Claim C3 counterexample: `extract_definitions` is not line-restricted, so
the `def foo():` lying on line 2 — inside a triple-quoted docstring, as
`find_docstring_lines` itself reports — still contributes `foo` to the
definitions, while `extract_calls` correctly skips all three lines. -/
theorem c3_counterexample :
    extract_definitions exDoc Language.python = ["foo"] ∧
    find_docstring_lines exDoc Language.python = [1, 2, 3] ∧
    (splitLines exDoc).getD 1 "" = "def foo():" ∧
    extract_calls exDoc Language.python = [] := by
  decide

/-- Claim C3, amended: every `(name, line)` pair extracted by `extract_calls`
comes from a line that is neither inside a docstring/multi-line-comment block
nor a whole-line comment; `extract_definitions`, by contrast, scans the whole
content and may pick up names from such lines (see the counterexample). -/
theorem c3_theorem :
    ∀ (content : String) (lang : Language) (name : String) (ln : Nat),
      (name, ln) ∈ extract_calls content lang →
      (find_docstring_lines content lang).contains ln = false ∧
      is_comment_line ((splitLines content).getD (ln - 1) "") lang = false := by
  intro content lang name ln h
  have h2 := dedupSeen_subset _ _ _ h
  have h3 := mem_callEvents h2
  exact ⟨h3.1, h3.2.1⟩

/-- Claim C3 witness. -/
theorem c3_witness :
    ("foo", 1) ∈ extract_calls "foo()" Language.python ∧
    (find_docstring_lines "foo()" Language.python).contains 1 = false ∧
    is_comment_line ((splitLines "foo()").getD 0 "") Language.python = false := by
  have hm : ("foo", 1) ∈ extract_calls "foo()" Language.python := by decide
  exact ⟨hm, c3_theorem "foo()" Language.python "foo" 1 hm⟩

/-!
## Claim C4
-/

/-- Claim C4: in `validate`, a call name that is a builtin for the detected
language, or lies in the caller-supplied `known_symbols`, or in the locally
extracted definitions, is never reported; in the file-scanning path
(`_check_symbol`), a name that is a builtin or lies in the whitelist, the
session symbols, the local definitions, or the codebase-wide definitions is
never reported (for any similarity oracle). -/
theorem c4_theorem :
    (∀ (mode : SymbolValidationMode) (code fp : String) (ks : List String)
       (lang : Language) (name : String),
       detect_language fp = some lang →
       (is_builtin name lang = true ∨ ks.contains name = true ∨
        (extract_definitions code lang).contains name = true) →
       ((SymbolValidator.validate mode code fp ks).issues.all
         (fun i => i.name != name)) = true)
  ∧ (∀ (wl ss ad ld : List String) (fs : String → List String) (name : String)
       (line : Nat) (fp mt : String) (lang : Language) (content : String),
       (is_builtin name lang = true ∨ wl.contains name = true ∨ ss.contains name = true ∨
        ld.contains name = true ∨ ad.contains name = true) →
       SymbolValidator.check_symbol wl ss ad ld fs name line fp mt lang content = none) := by
  constructor
  · intro mode code fp ks lang name hdet hskip
    rw [List.all_eq_true]
    intro i hi
    obtain ⟨lang', hdet', c, _, hname, hb, hk, _, _⟩ := mem_validate_issues hi
    rw [hdet] at hdet'
    injection hdet' with he
    subst he
    rw [bne_iff_ne, ne_eq]
    intro heq
    have hcn : c.1 = name := by rw [← hname, heq]
    rw [hcn] at hb hk
    rcases hskip with h | h | h
    · rw [hb] at h; cases h
    · have hmm : (ks ++ extract_definitions code lang).contains name = true := by
        simp only [List.contains, List.elem_eq_mem, decide_eq_true_eq] at h ⊢
        exact List.mem_append.mpr (Or.inl h)
      rw [hk] at hmm; cases hmm
    · have hmm : (ks ++ extract_definitions code lang).contains name = true := by
        simp only [List.contains, List.elem_eq_mem, decide_eq_true_eq] at h ⊢
        exact List.mem_append.mpr (Or.inr h)
      rw [hk] at hmm; cases hmm
  · intro wl ss ad ld fs name line fp mt lang content hskip
    unfold SymbolValidator.check_symbol
    rcases hskip with h | h | h | h | h
    · simp [h]
    · simp only [List.contains, List.elem_eq_mem, decide_eq_true_eq] at h
      simp [h]
    · simp only [List.contains, List.elem_eq_mem, decide_eq_true_eq] at h
      simp [h]
    · simp only [List.contains, List.elem_eq_mem, decide_eq_true_eq] at h
      simp [h]
    · simp only [List.contains, List.elem_eq_mem, decide_eq_true_eq] at h
      simp [h]

/-- Claim C4 witness. -/
theorem c4_witness :
    is_builtin "len" Language.python = true ∧
    ((SymbolValidator.validate SymbolValidationMode.warn "len(x)\nzorpf()" "a.py" []).issues.all
      (fun i => i.name != "len")) = true ∧
    is_builtin "strlen" Language.php = true ∧
    SymbolValidator.check_symbol [] [] [] [] (fun _ => []) "strlen" 1 "f.php" "call"
      Language.php "" = none := by
  refine ⟨by decide, ?_, by decide, ?_⟩
  · exact c4_theorem.1 SymbolValidationMode.warn "len(x)\nzorpf()" "a.py" [] Language.python
      "len" (by decide) (Or.inl (by decide))
  · exact c4_theorem.2 [] [] [] [] (fun _ => []) "strlen" 1 "f.php" "call" Language.php ""
      (Or.inl (by decide))

/-!
## Claim C5
-/

/-- Claim C5: `ConfidenceCalculator.calculate` equals the clamp to [0.1, 1.0]
of 1.0 plus the sum of the eight independent additive adjustments, each
applied exactly when its condition holds (conditions as computed by the
embedded helper predicates of the source). -/
theorem c5_theorem :
    ∀ (name : String) (lang : Language) (content : String) (has_similar : Bool)
      (similar_names : List String),
      calculate name lang content has_similar similar_names =
        max 0.1 (min 1 ((1 : ℚ)
          + (if is_common_external name then (-0.3 : ℚ) else 0)
          + (if has_many_imports content lang then (-0.15 : ℚ) else 0)
          + (if has_dynamic_patterns content lang then (-0.25 : ℚ) else 0)
          + (if has_similar then (0.1 : ℚ) else 0)
          + (if name.length ≤ 3 then (-0.2 : ℚ) else 0)
          + (if looks_like_external name lang then (-0.2 : ℚ) else 0)
          + (if is_common_pattern name then (-0.15 : ℚ) else 0)
          + (if naming_convention_mismatch name lang then (-0.1 : ℚ) else 0))) := by
  intro name lang content hs sn
  exact calculate_eq_clamp_sum name lang content hs sn

/-!
## Claim C6
-/

/-- Claim C6 counterexample: the line `x = "foo( {y}"` carries a call-shaped
substring inside a fully static, non-interpolated double-quoted literal, yet
`extract_calls` reports `foo` — the stripping regex refuses any string whose
body contains a brace, interpolated or not, as the unchanged output of
`_strip_string_contents` shows. -/
theorem c6_counterexample :
    extract_calls "x = \"foo( {y}\"" Language.python = [("foo", 1)] ∧
    strip_string_contents "x = \"foo( {y}\"" Language.python = "x = \"foo( {y}\"" := by
  decide

/-- Claim C6, amended: a call-shaped substring inside a static, brace-free,
non-interpolated string literal is never extracted (the Mustermann line is
blanked and yields nothing); a static double-quoted literal containing a
literal brace is preserved and its call-shaped contents are extracted (see
the counterexample); a call inside an interpolated form (Python f-string, JS
template literal with an embedded expression) is extracted. -/
theorem c6_theorem :
    extract_calls "placeholder = \"Max Mustermann (optional)\"" Language.python = [] ∧
    strip_string_contents "placeholder = \"Max Mustermann (optional)\"" Language.python =
      "placeholder = \"\"" ∧
    extract_calls "s = f\"{calculate(x)}\"" Language.python = [("calculate", 1)] ∧
    extract_calls "`Result: ${calculate(x)}`;" Language.javascript = [("calculate", 1)] := by
  decide

/-!
## Claim C7
-/

/-- Claim C7: `extract_calls` never yields a duplicate `(name, line)` pair,
its output is the stream of extracted pairs deduplicated keeping first
occurrences (hence in first-occurrence order), and it is deterministic. -/
theorem c7_theorem :
    ∀ (content : String) (lang : Language),
      (extract_calls content lang).Nodup ∧
      extract_calls content lang = firstOccurDedup (callEvents content lang) ∧
      (∀ (content' : String) (lang' : Language), content = content' → lang = lang' →
        extract_calls content lang = extract_calls content' lang') := by
  intro content lang
  refine ⟨dedupSeen_nodup _ _, ?_, ?_⟩
  · unfold extract_calls
    rw [dedupSeen_eq_firstOccur]
    congr 1
    simp [List.contains]
  · intro content' lang' h1 h2
    rw [h1, h2]

/-- Claim C7 witness: a snippet whose raw event stream has a duplicate pair
(`foo` occurs twice on line 1). -/
theorem c7_witness :
    callEvents "foo() + foo()" Language.python = [("foo", 1), ("foo", 1)] ∧
    extract_calls "foo() + foo()" Language.python = [("foo", 1)] ∧
    (extract_calls "foo() + foo()" Language.python).Nodup ∧
    extract_calls "foo() + foo()" Language.python =
      firstOccurDedup (callEvents "foo() + foo()" Language.python) ∧
    extract_calls "foo() + foo()" Language.python =
      extract_calls "foo() + foo()" Language.python := by
  have h := c7_theorem "foo() + foo()" Language.python
  exact ⟨by decide, by decide, h.1, h.2.1, h.2.2 "foo() + foo()" Language.python rfl rfl⟩

/-!
## Claim C8
-/

/-- Claim C8: the session entry point `validate` never reports a
common-external name (automatic pass), while the file-scanning path
`_check_symbol` still reports such a name when nothing else resolves it, its
confidence merely reduced by 0.3 (the base 1.0 becomes 0.7 ahead of the
remaining adjustments and the clamp). -/
theorem c8_theorem :
    (∀ (mode : SymbolValidationMode) (code fp : String) (ks : List String),
       ((SymbolValidator.validate mode code fp ks).issues.all
         (fun i => !is_common_external i.name)) = true)
  ∧ (∀ (wl ss ad ld : List String) (fs : String → List String) (name : String)
       (line : Nat) (fp mt : String) (lang : Language) (content : String),
       is_builtin name lang = false → wl.contains name = false →
       ss.contains name = false → ld.contains name = false → ad.contains name = false →
       is_common_external name = true →
       (SymbolValidator.check_symbol wl ss ad ld fs name line fp mt lang content).map
           (fun i => i.confidence) =
         some (max 0.1 (min 1 ((0.7 : ℚ)
           + (if has_many_imports content lang then (-0.15 : ℚ) else 0)
           + (if has_dynamic_patterns content lang then (-0.25 : ℚ) else 0)
           + (if (fs name).length > 0 then (0.1 : ℚ) else 0)
           + (if name.length ≤ 3 then (-0.2 : ℚ) else 0)
           + (if looks_like_external name lang then (-0.2 : ℚ) else 0)
           + (if is_common_pattern name then (-0.15 : ℚ) else 0)
           + (if naming_convention_mismatch name lang then (-0.1 : ℚ) else 0))))) := by
  constructor
  · intro mode code fp ks
    rw [List.all_eq_true]
    intro i hi
    obtain ⟨lang, _, c, _, hname, _, _, hce, _⟩ := mem_validate_issues hi
    rw [hname, hce]
    rfl
  · intro wl ss ad ld fs name line fp mt lang content h1 h2 h3 h4 h5 hce
    unfold SymbolValidator.check_symbol
    rw [if_neg (by rw [h1]; exact Bool.false_ne_true),
      if_neg (by rw [h2]; exact Bool.false_ne_true),
      if_neg (by rw [h3]; exact Bool.false_ne_true),
      if_neg (by rw [h4]; exact Bool.false_ne_true),
      if_neg (by rw [h5]; exact Bool.false_ne_true)]
    simp only [Option.map_some']
    congr 1
    rw [calculate_eq_clamp_sum, if_pos hce]
    simp only [decide_eq_true_eq]
    rw [(by norm_num : ((1 : ℚ) + -0.3) = 0.7)]

/-- Claim C8 witness: `findById` is common-external, passes automatically in
`validate`, and is still reported by `_check_symbol` with confidence
0.45 = clamp(0.7 - 0.15 - 0.1). -/
theorem c8_witness :
    is_common_external "findById" = true ∧
    is_builtin "findById" Language.python = false ∧
    (SymbolValidator.check_symbol [] [] [] [] (fun _ => []) "findById" 1 "f.py" "call"
      Language.python "").map (fun i => i.confidence) = some (9/20) ∧
    ((SymbolValidator.validate SymbolValidationMode.warn "findById(x)" "f.py" []).issues.all
      (fun i => !is_common_external i.name)) = true := by
  refine ⟨by decide, by decide, ?_,
    c8_theorem.1 SymbolValidationMode.warn "findById(x)" "f.py" []⟩
  rw [c8_theorem.2 [] [] [] [] (fun _ => []) "findById" 1 "f.py" "call" Language.python ""
    (by decide) (by decide) (by decide) (by decide) (by decide) (by decide)]
  congr 1
  rw [if_neg (by decide), if_neg (by decide), if_neg (by decide), if_neg (by decide),
    if_neg (by decide), if_pos (by decide), if_pos (by decide)]
  norm_num [min_def, max_def]

/-!
## Claim C9
-/

/-- Claim C9 counterexample: `__callStatic` is listed in the PHP builtin
table, but `is_builtin` lower-cases PHP lookups and the lower-cased form
`__callstatic` is not in the table, so the listed name is not recognised. -/
theorem c9_counterexample :
    (BUILTINS Language.php).contains "__callStatic" = true ∧
    is_builtin "__callStatic" Language.php = false := by
  decide

/-- Claim C9, amended: `is_builtin` tests the lower-cased form against the
PHP table and the exact form against every other table; consequently every
listed name is recognised except the three mixed-case PHP entries
(`__callStatic`, `__toString`, `__debugInfo`), whose lower-cased forms are
not listed; `xyzzy123` is recognised nowhere. -/
theorem c9_theorem :
    (∀ name : String,
       is_builtin name Language.php = (BUILTINS Language.php).contains (lcStr name))
  ∧ (∀ (name : String) (lang : Language), lang ≠ Language.php →
       is_builtin name lang = (BUILTINS lang).contains name)
  ∧ ((BUILTINS Language.php).all (fun n =>
       n == "__callStatic" || n == "__toString" || n == "__debugInfo"
         || is_builtin n Language.php) = true)
  ∧ (is_builtin "__toString" Language.php = false ∧
     is_builtin "__debugInfo" Language.php = false)
  ∧ (∀ lang : Language, is_builtin "xyzzy123" lang = false) := by
  refine ⟨fun name => rfl, ?_, by decide, by decide, ?_⟩
  · intro name lang h
    unfold is_builtin
    rw [if_neg h]
  · intro lang
    cases lang <;> decide

/-- Claim C9 witness. -/
theorem c9_witness :
    is_builtin "len" Language.python = (BUILTINS Language.python).contains "len" ∧
    is_builtin "len" Language.python = true ∧
    is_builtin "xyzzy123" Language.go = false := by
  refine ⟨c9_theorem.2.1 "len" Language.python (by decide), by decide,
    c9_theorem.2.2.2.2 Language.go⟩

/-!
## Claim C10
-/

/-- Claim C10: the reserved-keyword filter of `_is_valid_symbol` is
case-insensitive and language-independent — any name whose lower-cased form
lies in the single shared keyword set is rejected, names shorter than two
characters are rejected, and therefore every output of `extract_calls`,
`extract_definitions` and `extract_properties` passes `_is_valid_symbol`; in
particular the mixed-case spellings `If`, `Return`, `Type` and `Box` are
rejected in every language. -/
theorem c10_theorem :
    (∀ (name : String) (lang : Language),
       trueKeywords.contains (lcStr name) = true → is_valid_symbol name lang = false)
  ∧ (∀ (name : String) (lang : Language), name.length < 2 → is_valid_symbol name lang = false)
  ∧ (∀ (name : String) (lang lang' : Language),
       is_valid_symbol name lang = is_valid_symbol name lang')
  ∧ (∀ (content : String) (lang : Language),
       ((extract_calls content lang).all (fun c => is_valid_symbol c.1 lang)) = true)
  ∧ (∀ (content : String) (lang : Language),
       ((extract_definitions content lang).all (fun n => is_valid_symbol n lang)) = true)
  ∧ (∀ (content : String) (lang : Language),
       ((extract_properties content lang).all (fun p => is_valid_symbol p.1 lang)) = true)
  ∧ (is_valid_symbol "If" Language.python = false ∧
     is_valid_symbol "Return" Language.go = false ∧
     is_valid_symbol "Type" Language.typescript = false ∧
     is_valid_symbol "Box" Language.rust = false) := by
  refine ⟨?_, ?_, fun name lang lang' => rfl, ?_, ?_, ?_, by decide⟩
  · intro name lang hkw
    unfold is_valid_symbol
    by_cases hlen : name.length < 2
    · rw [if_pos hlen]
    · rw [if_neg hlen, hkw]
      rfl
  · intro name lang hlen
    unfold is_valid_symbol
    rw [if_pos hlen]
  · intro content lang
    rw [List.all_eq_true]
    intro c hc
    have h2 := dedupSeen_subset _ _ _ ((by exact hc) :
      (c.1, c.2) ∈ extract_calls content lang)
    have h3 := (mem_callEvents h2).2.2
    unfold lineCallNames at h3
    rw [List.mem_flatMap] at h3
    obtain ⟨p, _, hmem⟩ := h3
    have h4 := List.of_mem_filter hmem
    exact (Bool.and_eq_true_iff.mp h4).2
  · intro content lang
    rw [List.all_eq_true]
    intro n hn
    unfold extract_definitions at hn
    rw [List.mem_flatMap] at hn
    obtain ⟨p, _, hmem⟩ := hn
    have h4 := List.of_mem_filter hmem
    exact (Bool.and_eq_true_iff.mp h4).2
  · intro content lang
    rw [List.all_eq_true]
    intro c hc
    unfold extract_properties at hc
    rw [List.mem_flatMap] at hc
    obtain ⟨p, _, hmem⟩ := hc
    split at hmem
    · cases hmem
    · rw [List.mem_flatMap] at hmem
      obtain ⟨pat, _, hmem2⟩ := hmem
      rw [List.mem_map] at hmem2
      obtain ⟨n, hn, heq⟩ := hmem2
      have h4 := List.of_mem_filter hn
      have h5 := (Bool.and_eq_true_iff.mp h4).2
      have : c.1 = n := by rw [← heq]
      rw [this]
      exact h5

/-- Claim C10 witness. -/
theorem c10_witness :
    trueKeywords.contains (lcStr "Box") = true ∧
    is_valid_symbol "Box" Language.php = false ∧
    is_valid_symbol "x" Language.go = false ∧
    is_valid_symbol "unknown_fn" Language.python = is_valid_symbol "unknown_fn" Language.rust ∧
    ((extract_calls "foo()" Language.python).all
      (fun c => is_valid_symbol c.1 Language.python)) = true := by
  refine ⟨by decide, c10_theorem.1 "Box" Language.php (by decide),
    c10_theorem.2.1 "x" Language.go (by decide),
    c10_theorem.2.2.1 "unknown_fn" Language.python Language.rust,
    c10_theorem.2.2.2.1 "foo()" Language.python⟩








end Chainguard
